import Mathlib

/-!
Verification development for the Pub-data-agent repository.

The repository is a three-agent LangGraph pipeline (planner, collector,
communicator) that turns a natural-language question about Brazilian public
statistics into IBGE/SIDRA REST calls and a tabular result.

This file gives a shallow embedding of the data model and of the functions
of `src/workflow/graph.py`, `src/agents/planner/node.py`,
`src/agents/collector/node.py`, `src/agents/collector/schema.py` and
`src/agents/communicator/node.py`, and proves or refutes the frozen claims
about them.

External effects (LLM invocations, REST requests, `json.loads`,
`float(...)`, the current time) are modelled as explicit oracle parameters;
every Python function is translated statement by statement, with fallible
statements returning `Except String` (the `String` standing for the Python
exception) so that a single enclosing `try/except` is an `Except` match.
-/

set_option maxHeartbeats 1000000

namespace PubDataAgent

/-- A Python/JSON value as it flows through the agent pipeline: `none` is
Python `None`, `dict` is a `dict` with string keys in insertion order. -/
inductive PyVal where
  | none
  | bool (b : Bool)
  | int (n : Int)
  | str (s : String)
  | list (xs : List PyVal)
  | dict (kvs : List (String × PyVal))

/-- Python `x == "lit"` for a string literal, without needing decidable
equality on the nested `PyVal` type. -/
def PyVal.isStr (v : PyVal) (s : String) : Bool :=
  match v with
  | .str t => t == s
  | _ => false

/-- First-match lookup in a key/value list (Python dicts have unique keys,
so first match is the match). -/
def kvLookup (kvs : List (String × PyVal)) (k : String) : Option PyVal :=
  (kvs.find? (fun kv => kv.1 = k)).map (·.2)

/-- Python truthiness of a value (`bool(x)`). -/
def pyTruthy : PyVal → Bool
  | .none => false
  | .bool b => b
  | .int n => decide (n ≠ 0)
  | .str s => decide (s ≠ "")
  | .list xs => !xs.isEmpty
  | .dict kvs => !kvs.isEmpty

/-- Python `str(x)`. The rendering of containers is abbreviated (no claim
depends on the textual repr of lists or dicts). -/
def pyStr : PyVal → String
  | .none => "None"
  | .bool true => "True"
  | .bool false => "False"
  | .int n => toString n
  | .str s => s
  | .list _ => "<list>"
  | .dict _ => "<dict>"

/-- Python `x.get(k, d)`: defined on dicts, raises `AttributeError` on any
other receiver. -/
def pyGetD (v : PyVal) (k : String) (d : PyVal) : Except String PyVal :=
  match v with
  | .dict kvs => .ok ((kvLookup kvs k).getD d)
  | _ => .error "AttributeError: object has no attribute get"

/-- Python `x[k]` for a string key: raises `KeyError` when missing,
`TypeError` on a non-dict receiver. -/
def pyKVIndex (v : PyVal) (k : String) : Except String PyVal :=
  match v with
  | .dict kvs =>
    match kvLookup kvs k with
    | some w => .ok w
    | Option.none => .error ("KeyError: " ++ k)
  | _ => .error "TypeError: object is not subscriptable"

/-- Python `x[0]`: head of a list (IndexError when empty), first character
of a string, error otherwise. -/
def pyIndex0 (v : PyVal) : Except String PyVal :=
  match v with
  | .list (x :: _) => .ok x
  | .list [] => .error "IndexError: list index out of range"
  | .str s =>
    match s.data with
    | c :: _ => .ok (.str ⟨[c]⟩)
    | [] => .error "IndexError: string index out of range"
  | _ => .error "TypeError: object is not subscriptable"

/-- Python `x[-1]` on a list. -/
def pyLast (v : PyVal) : Except String PyVal :=
  match v with
  | .list xs =>
    match xs.getLast? with
    | some x => .ok x
    | Option.none => .error "IndexError: list index out of range"
  | _ => .error "TypeError: object is not subscriptable"

/-- Python `isinstance(x, int)`. `bool` is a subclass of `int` in Python,
so `bool` values pass this check. -/
def pyIsInt : PyVal → Bool
  | .int _ => true
  | .bool _ => true
  | _ => false

/-- Python `str.isdigit()`: nonempty and all digits.  (Stated over the
character list so that concrete runs reduce in the kernel.) -/
def isDigitStr (s : String) : Bool :=
  !s.data.isEmpty && s.data.all Char.isDigit

/-- Decimal value of a digit list. -/
def digitsToNat (cs : List Char) : Nat :=
  cs.foldl (fun n c => n * 10 + (c.toNat - 48)) 0

/-- `int(s)` for a string that passed `isdigit()`. -/
def intOfDigits (s : String) : Int :=
  (digitsToNat s.data : Nat)

/-- `int(s)` on an arbitrary string: an optional sign followed by digits,
`ValueError` (`Option.none`) otherwise.  (Python also strips whitespace and
accepts underscores; no claim depends on those corners.) -/
def strToInt? (s : String) : Option Int :=
  match s.data with
  | '-' :: cs =>
    if !cs.isEmpty && cs.all Char.isDigit then some (-(digitsToNat cs : Int))
    else Option.none
  | cs =>
    if !cs.isEmpty && cs.all Char.isDigit then some (digitsToNat cs : Int)
    else Option.none

/-- Python `str.strip()` over the character list. -/
def pyStrip (s : String) : String :=
  ⟨((s.data.dropWhile Char.isWhitespace).reverse.dropWhile
      Char.isWhitespace).reverse⟩

/-- `"..."​.replace(" ", "_")` — single-character replacement is a map. -/
def replaceSpaces (s : String) : String :=
  ⟨s.data.map (fun c => if c = ' ' then '_' else c)⟩

/-- First-occurrence deduplication (`list(dict.fromkeys(...))`). -/
def dedupAux (seen : List String) : List String → List String
  | [] => []
  | x :: xs => if x ∈ seen then dedupAux seen xs else x :: dedupAux (x :: seen) xs

/-- First-occurrence deduplication (`list(dict.fromkeys(...))`). -/
def dedupFirst (xs : List String) : List String := dedupAux [] xs

/-! ## Messages and agent responses

LangChain messages are objects, not JSON values; the collector's parsing
helpers dispatch on `message.__class__.__name__` and on the `content`
attribute, which is all the model keeps. -/

/-- The class of a LangChain message, as tested by
`message.__class__.__name__ != "AIMessage"`. -/
inductive MsgKind where
  | ai
  | human
  | system
  | tool
deriving DecidableEq, Repr

/-- A LangChain message: its class and its `content` attribute (a Python
value; `str` in the common case, but the code guards for other shapes). -/
structure Message where
  kind : MsgKind
  content : PyVal

/-- The argument fed to `_parse_assunto_collector_result` /
`_parse_territorio_collector_result`. The source discriminates exactly
three shapes: a falsy or non-dict value, a dict whose `"messages"` entry is
absent or not a list, and a dict carrying a list of message objects.
(Message objects are not JSON values, hence the dedicated type.) -/
inductive AgentResult where
  | notDict
  | dictNoMessages
  | dictMessages (msgs : List Message)

/-- The reversed-iteration loop of `_parse_assunto_collector_result`
(node.py lines 531-546): skip non-`AIMessage`s, skip falsy or non-string
content, skip content that `json.loads` rejects, and return
`payload["id"]` from the first (in reverse order) payload that is a JSON
object containing `"id"`. `jsonLoads` models `json.loads` (`Option.none`
standing for `JSONDecodeError`). -/
def findIdReversed (jsonLoads : String → Option PyVal) : List Message → Option PyVal
  | [] => Option.none
  | m :: rest =>
    if m.kind ≠ MsgKind.ai then findIdReversed jsonLoads rest
    else
      match m.content with
      | .str s =>
        if s = "" then findIdReversed jsonLoads rest
        else
          match jsonLoads s with
          | some (.dict kvs) =>
            match kvLookup kvs "id" with
            | some v => some v
            | Option.none => findIdReversed jsonLoads rest
          | some _ => findIdReversed jsonLoads rest
          | Option.none => findIdReversed jsonLoads rest
      | _ => findIdReversed jsonLoads rest

/-- `_parse_assunto_collector_result` (node.py lines 513-548). Total: every
failure mode of the source is an early `None`/`continue`, never an
exception. -/
def parse_assunto_collector_result (jsonLoads : String → Option PyVal) :
    AgentResult → Option PyVal
  | .notDict => Option.none
  | .dictNoMessages => Option.none
  | .dictMessages msgs => findIdReversed jsonLoads msgs.reverse

/-- Specification-side predicate for claim C9: a message is an `AIMessage`
whose string content parses under `json.loads` to a JSON object containing
the key `"id"`. -/
def isIdAIMessage (jsonLoads : String → Option PyVal) (m : Message) : Bool :=
  m.kind = MsgKind.ai &&
    match m.content with
    | .str s =>
      s ≠ "" &&
        match jsonLoads s with
        | some (.dict kvs) => (kvLookup kvs "id").isSome
        | _ => false
    | _ => false

/-- Specification-side extraction for claim C9: the value under `"id"` of
the parsed content of a message. -/
def extractId (jsonLoads : String → Option PyVal) (m : Message) : Option PyVal :=
  match m.content with
  | .str s =>
    match jsonLoads s with
    | some (.dict kvs) => kvLookup kvs "id"
    | _ => Option.none
  | _ => Option.none

theorem findIdReversed_eq_find (jsonLoads : String → Option PyVal)
    (msgs : List Message) :
    findIdReversed jsonLoads msgs =
      (msgs.find? (isIdAIMessage jsonLoads)).bind (extractId jsonLoads) := by
  induction msgs with
  | nil => rfl
  | cons m rest ih =>
    by_cases hk : m.kind = MsgKind.ai
    · match hc : m.content with
      | .str s =>
        by_cases hs : s = ""
        · subst hs
          simp [findIdReversed, hk, hc, List.find?, isIdAIMessage, ih]
        · match hj : jsonLoads s with
          | some (.dict kvs) =>
            match hl : kvLookup kvs "id" with
            | some v =>
              simp [findIdReversed, hk, hc, hs, hj, hl, List.find?,
                isIdAIMessage, extractId]
            | Option.none =>
              simp [findIdReversed, hk, hc, hs, hj, hl, List.find?,
                isIdAIMessage, ih]
          | some PyVal.none =>
            simp [findIdReversed, hk, hc, hs, hj, List.find?, isIdAIMessage, ih]
          | some (.bool b) =>
            simp [findIdReversed, hk, hc, hs, hj, List.find?, isIdAIMessage, ih]
          | some (.int n) =>
            simp [findIdReversed, hk, hc, hs, hj, List.find?, isIdAIMessage, ih]
          | some (.str t) =>
            simp [findIdReversed, hk, hc, hs, hj, List.find?, isIdAIMessage, ih]
          | some (.list xs) =>
            simp [findIdReversed, hk, hc, hs, hj, List.find?, isIdAIMessage, ih]
          | Option.none =>
            simp [findIdReversed, hk, hc, hs, hj, List.find?, isIdAIMessage, ih]
      | PyVal.none =>
        simp [findIdReversed, hk, hc, List.find?, isIdAIMessage, ih]
      | .bool b =>
        simp [findIdReversed, hk, hc, List.find?, isIdAIMessage, ih]
      | .int n =>
        simp [findIdReversed, hk, hc, List.find?, isIdAIMessage, ih]
      | .list xs =>
        simp [findIdReversed, hk, hc, List.find?, isIdAIMessage, ih]
      | .dict kvs =>
        simp [findIdReversed, hk, hc, List.find?, isIdAIMessage, ih]
    · simp [findIdReversed, hk, List.find?, isIdAIMessage, ih]

/-! ## Observable events and the collector computation type

The collector node's steps perform two kinds of external calls —
`collector_agent.invoke` (an LLM call) and the `ibge_*` REST tools — and
the node logs each completed resolution.  Runs are modelled in a
writer/except style: a computation produces the list of events it emitted
(in order) together with either a value or the Python exception text. -/

/-- An observable event of a collector run. `llmCall`/`restCall` are tagged
with the call site / tool; `resolved` marks a completed resolution step
(the `logger.info` lines of `collector_node`); `dataRequest` is the final
`ibge_agregado_dados_request` call. -/
inductive Ev where
  | llmCall (step : String)
  | restCall (tool : String)
  | resolved (step : String)
  | dataRequest
deriving DecidableEq, Repr

/-- A collector computation: the emitted events and the outcome. -/
def CollectM (α : Type) : Type := List Ev × Except String α

/-- Return without events. -/
def cret {α : Type} (a : α) : CollectM α := ([], Except.ok a)

/-- Raise a Python exception. -/
def cthrow {α : Type} (e : String) : CollectM α := ([], Except.error e)

/-- Emit one event. -/
def cemit (e : Ev) : CollectM Unit := ([e], Except.ok ())

/-- Lift an exception-only computation (no events). -/
def clift {α : Type} (x : Except String α) : CollectM α := ([], x)

/-- Sequencing: events accumulate; an exception stops the run. -/
def cbind {α β : Type} (x : CollectM α) (f : α → CollectM β) : CollectM β :=
  match x with
  | (evs, Except.error e) => (evs, Except.error e)
  | (evs, Except.ok a) => (evs ++ (f a).1, (f a).2)

theorem cbind_events {α β : Type} (x : CollectM α) (f : α → CollectM β) :
    (cbind x f).1 = x.1 ++ (match x.2 with
      | Except.ok a => (f a).1
      | Except.error _ => []) := by
  rcases x with ⟨evs, r⟩
  cases r <;> simp [cbind]

theorem cbind_of_ok {α β : Type} {x : CollectM α} {a : α}
    (f : α → CollectM β) (h : x.2 = Except.ok a) :
    cbind x f = (x.1 ++ (f a).1, (f a).2) := by
  rcases x with ⟨evs, r⟩
  cases r <;> simp_all [cbind]

theorem cbind_of_error {α β : Type} {x : CollectM α} {e : String}
    (f : α → CollectM β) (h : x.2 = Except.error e) :
    cbind x f = (x.1, Except.error e) := by
  rcases x with ⟨evs, r⟩
  cases r <;> simp_all [cbind]

theorem cbind_ok_inv {α β : Type} {x : CollectM α} {f : α → CollectM β}
    {b : β} (h : (cbind x f).2 = Except.ok b) :
    ∃ a, x.2 = Except.ok a ∧ (f a).2 = Except.ok b := by
  rcases x with ⟨evs, r⟩
  cases r with
  | error e => simp [cbind] at h
  | ok a => exact ⟨a, rfl, by simpa [cbind] using h⟩

/-! ## The collector result schema (`src/agents/collector/schema.py`)

`CollectorCompleteResult` is a pydantic-v2 model.  Its validation is
modelled field by field: `success`, `task` and `parameters` have no
default and are required; every other field is optional or defaulted.
Pydantic's lax coercion is modelled where the code exercises it: numeric
strings coerce to `int` fields, `bool` does not (pydantic rejects `bool`
for `int` and non-`str` for `str`). -/

structure CollectorCompleteResult where
  success : Bool
  collected_data : List PyVal
  failed_variables : List String
  errors : List String
  metadata : List (String × PyVal)
  source_used : List (String × PyVal)
  filters_applied : List (String × PyVal)
  collection_time : String
  task : String
  parameters : List (String × PyVal)
  assunto_id : Option Int
  agregado_id : Option Int
  periodo_id : Option Int
  territorio_id : Option String
  variavel_id : Option Int
  classificacao_id : Option Int
  raw_dados : Option (List PyVal)

/-- Pydantic validation of a `bool` field (lax mode also accepts the usual
boolean-like strings and 0/1). -/
def coerceBool : PyVal → Except String Bool
  | .bool b => .ok b
  | .int 0 => .ok false
  | .int 1 => .ok true
  | .str "true" => .ok true
  | .str "false" => .ok false
  | _ => .error "bool"

/-- Pydantic validation of a `str` field: strict, no coercion from
non-strings. -/
def coerceStr : PyVal → Except String String
  | .str s => .ok s
  | _ => .error "str"

/-- Pydantic validation of a `List[Any]` field. -/
def coerceListAny : PyVal → Except String (List PyVal)
  | .list xs => .ok xs
  | _ => .error "list"

/-- Element validation of a `List[str]` field: all elements must be
strings. -/
def strList : List PyVal → Except String (List String)
  | [] => .ok []
  | .str s :: rest => (strList rest).map (s :: ·)
  | _ :: _ => .error "list[str]"

/-- Pydantic validation of a `List[str]` field. -/
def coerceListStr : PyVal → Except String (List String)
  | .list xs => strList xs
  | _ => .error "list[str]"

/-- Pydantic validation of a `Dict[str, Any]` field. -/
def coerceDict : PyVal → Except String (List (String × PyVal))
  | .dict kvs => .ok kvs
  | _ => .error "dict"

/-- Pydantic validation of an `Optional[int]` field: `None` passes, `int`
passes, a numeric string coerces, `bool` and everything else fail. -/
def coerceOptInt : PyVal → Except String (Option Int)
  | .none => .ok Option.none
  | .int n => .ok (some n)
  | .str s =>
    match strToInt? s with
    | some n => .ok (some n)
    | Option.none => .error "int"
  | _ => .error "int"

/-- Pydantic validation of an `Optional[str]` field. -/
def coerceOptStr : PyVal → Except String (Option String)
  | .none => .ok Option.none
  | .str s => .ok (some s)
  | _ => .error "str"

/-- Pydantic validation of the `Optional[List[Dict[str, Any]]]` field
`raw_dados` (the dict elements are kept as `PyVal`s). -/
def coerceOptListDict : PyVal → Except String (Option (List PyVal))
  | .none => .ok Option.none
  | .list xs =>
    if xs.all (fun x => match x with | .dict _ => true | _ => false)
    then .ok (some xs) else .error "list[dict]"
  | _ => .error "list[dict]"

/-- Validate one optional-with-default field: absent means default. -/
def fieldD {α : Type} (input : List (String × PyVal)) (k : String)
    (coe : PyVal → Except String α) (d : α) : Except String α :=
  match kvLookup input k with
  | Option.none => .ok d
  | some v => coe v

/-- Validate one required field: absent is a validation error. -/
def fieldR {α : Type} (input : List (String × PyVal)) (k : String)
    (coe : PyVal → Except String α) : Except String α :=
  match kvLookup input k with
  | Option.none => .error ("missing required field " ++ k)
  | some v => coe v

/-- `CollectorCompleteResult(**input)` — pydantic construction/validation
(schema.py lines 31-54).  `now` models `datetime.utcnow().isoformat()+"Z"`
used by the `collection_time` default factory. -/
def validateCCR (now : String) (input : List (String × PyVal)) :
    Except String CollectorCompleteResult := do
  let success ← fieldR input "success" coerceBool
  let collected_data ← fieldD input "collected_data" coerceListAny []
  let failed_variables ← fieldD input "failed_variables" coerceListStr []
  let errors ← fieldD input "errors" coerceListStr []
  let metadata ← fieldD input "metadata" coerceDict []
  let source_used ← fieldD input "source_used" coerceDict []
  let filters_applied ← fieldD input "filters_applied" coerceDict []
  let collection_time ← fieldD input "collection_time" coerceStr now
  let task ← fieldR input "task" coerceStr
  let parameters ← fieldR input "parameters" coerceDict
  let assunto_id ← fieldD input "assunto_id" coerceOptInt Option.none
  let agregado_id ← fieldD input "agregado_id" coerceOptInt Option.none
  let periodo_id ← fieldD input "periodo_id" coerceOptInt Option.none
  let territorio_id ← fieldD input "territorio_id" coerceOptStr Option.none
  let variavel_id ← fieldD input "variavel_id" coerceOptInt Option.none
  let classificacao_id ← fieldD input "classificacao_id" coerceOptInt Option.none
  let raw_dados ← fieldD input "raw_dados" coerceOptListDict Option.none
  pure { success, collected_data, failed_variables, errors, metadata,
         source_used, filters_applied, collection_time, task, parameters,
         assunto_id, agregado_id, periodo_id, territorio_id, variavel_id,
         classificacao_id, raw_dados }

/-- `model_dump()` of a `CollectorCompleteResult`, as stored into
`state["data"]`. -/
def CollectorCompleteResult.dump (r : CollectorCompleteResult) : PyVal :=
  .dict [
    ("success", .bool r.success),
    ("collected_data", .list r.collected_data),
    ("failed_variables", .list (r.failed_variables.map PyVal.str)),
    ("errors", .list (r.errors.map PyVal.str)),
    ("metadata", .dict r.metadata),
    ("source_used", .dict r.source_used),
    ("filters_applied", .dict r.filters_applied),
    ("collection_time", .str r.collection_time),
    ("task", .str r.task),
    ("parameters", .dict r.parameters),
    ("assunto_id", match r.assunto_id with | some n => .int n | _ => .none),
    ("agregado_id", match r.agregado_id with | some n => .int n | _ => .none),
    ("periodo_id", match r.periodo_id with | some n => .int n | _ => .none),
    ("territorio_id", match r.territorio_id with | some s => .str s | _ => .none),
    ("variavel_id", match r.variavel_id with | some n => .int n | _ => .none),
    ("classificacao_id", match r.classificacao_id with | some n => .int n | _ => .none),
    ("raw_dados", match r.raw_dados with | some xs => .list xs | _ => .none)]

/-! ## Agent state (`src/agents/state.py`)

`AgentState` is a `TypedDict` with the six channels below;
`execution_plan` is declared `List[Dict[str, Any]]`, so plan steps are
dicts. -/

structure AgentState where
  messages : List Message
  execution_plan : List (List (String × PyVal))
  current_step : Nat
  data : PyVal
  analysis : PyVal
  answer : String

/-- `extract_last_user_question` (node.py lines 251-256): content of the
last message with a truthy `content` attribute, else `""`. -/
def extract_last_user_question (messages : List Message) : PyVal :=
  match messages.reverse.find? (fun m => pyTruthy m.content) with
  | some m => m.content
  | Option.none => .str ""

/-- The environment of a collector run.  Each `collector_agent.invoke` call
site and each REST tool gets its own field, a function of the dynamic data
interpolated into the prompt / tool input; `jsonLoads`, `regexFindJson`
(the `re.search` of `_parse_territorio_collector_result`) and `pyFloat`
(`float(...)`, `Option.none` standing for `ValueError`) model the Python
standard library, and `now` models `datetime.utcnow()`. -/
structure CollectorOracle where
  invokeAssunto : PyVal → Except String AgentResult
  invokeAgregado : PyVal → PyVal → Except String AgentResult
  invokePeriodo : PyVal → PyVal → Except String AgentResult
  invokeTerritorio : List PyVal → PyVal → Except String AgentResult
  invokeVariavel : PyVal → PyVal → Except String AgentResult
  agregadosRequest : PyVal → Except String PyVal
  metadadosRequest : PyVal → Except String PyVal
  nivelSearch : String → Except String PyVal
  dadosRequest : PyVal → PyVal → PyVal → String → PyVal → Except String PyVal
  jsonLoads : String → Option PyVal
  regexFindJson : String → Option String
  pyFloat : PyVal → Option Rat
  now : String

/-- The reversed-iteration loop of `_parse_territorio_collector_result`
(node.py lines 583-616): like `findIdReversed`, with a regex fallback on
`JSONDecodeError` (a second `json.loads` on the regex match, `continue` on
any failure) and string coercion of the extracted id (`str` returned
as-is, `int`/`float`/`bool` through `str(...)`, other types skipped). -/
def findTerritorioReversed (jsonLoads : String → Option PyVal)
    (regexFindJson : String → Option String) : List Message → Option String
  | [] => Option.none
  | m :: rest =>
    if m.kind ≠ MsgKind.ai then findTerritorioReversed jsonLoads regexFindJson rest
    else
      match m.content with
      | .str s =>
        let clean := pyStrip s
        if clean.data.isEmpty then findTerritorioReversed jsonLoads regexFindJson rest
        else
          match (match jsonLoads clean with
                 | some p => some p
                 | Option.none =>
                   match regexFindJson clean with
                   | some mtext => jsonLoads mtext
                   | Option.none => Option.none) with
          | some (.dict kvs) =>
            match kvLookup kvs "id" with
            | some (.str t) => some t
            | some (.int n) => some (pyStr (.int n))
            | some (.bool b) => some (pyStr (.bool b))
            | _ => findTerritorioReversed jsonLoads regexFindJson rest
          | _ => findTerritorioReversed jsonLoads regexFindJson rest
      | _ => findTerritorioReversed jsonLoads regexFindJson rest

/-- `_parse_territorio_collector_result` (node.py lines 572-616). -/
def parse_territorio_collector_result (jsonLoads : String → Option PyVal)
    (regexFindJson : String → Option String) : AgentResult → Option String
  | .notDict => Option.none
  | .dictNoMessages => Option.none
  | .dictMessages msgs => findTerritorioReversed jsonLoads regexFindJson msgs.reverse

/-! ## The collector's resolution steps (`src/agents/collector/node.py`) -/

/-- `get_assunto_id` (lines 259-286): one LLM call, parse, raise when no
id (or a JSON `null` id) was extracted. -/
def get_assunto_id (o : CollectorOracle) (concept : PyVal) : CollectM PyVal :=
  cbind (cemit (Ev.llmCall "assunto")) fun _ =>
  cbind (clift (o.invokeAssunto concept)) fun response =>
  match parse_assunto_collector_result o.jsonLoads response with
  | Option.none => cthrow "Não foi possível encontrar o assunto ID"
  | some PyVal.none => cthrow "Não foi possível encontrar o assunto ID"
  | some v => cret v

/-- `get_agregados_from_assunto` (lines 289-292): one REST call, no LLM. -/
def get_agregados_from_assunto (o : CollectorOracle) (assunto_id : PyVal) :
    CollectM PyVal :=
  cbind (cemit (Ev.restCall "ibge_agregados_request")) fun _ =>
  clift (o.agregadosRequest assunto_id)

/-- `select_agregado_id` (lines 295-318): dig out
`temas_encontrados[0]["agregados"]`, raise when empty, one LLM call,
parse; a string id goes through `int(...)` (which raises on a non-numeric
literal), then the `None` check raises. -/
def select_agregado_id (o : CollectorOracle) (agregados task : PyVal) :
    CollectM PyVal :=
  cbind (clift (pyGetD agregados "temas_encontrados" (PyVal.list [PyVal.dict []]))) fun temas =>
  cbind (clift (pyIndex0 temas)) fun tema0 =>
  cbind (clift (pyGetD tema0 "agregados" (PyVal.list []))) fun agregados_list =>
  if pyTruthy agregados_list = false then
    cthrow "Nenhum agregado encontrado para este assunto"
  else
  cbind (cemit (Ev.llmCall "agregado")) fun _ =>
  cbind (clift (o.invokeAgregado agregados_list task)) fun response =>
  match parse_assunto_collector_result o.jsonLoads response with
  | some (PyVal.str s) =>
    (match strToInt? s with
     | some n => cret (PyVal.int n)
     | Option.none => cthrow "ValueError: invalid literal for int()")
  | Option.none => cthrow "Não foi possível selecionar o agregado"
  | some PyVal.none => cthrow "Não foi possível selecionar o agregado"
  | some v => cret v

/-- `get_agregado_metadata` (lines 321-324): one REST call. -/
def get_agregado_metadata (o : CollectorOracle) (agregado_id : PyVal) :
    CollectM PyVal :=
  cbind (cemit (Ev.restCall "ibge_agregado_metadados_request")) fun _ =>
  clift (o.metadadosRequest agregado_id)

/-- The digit-string-to-int normalisation applied to a period id
(`int(periodo_id)` when `isinstance(periodo_id, str) and
periodo_id.isdigit()`; anything else passes through unchanged). -/
def periodoNormalize (v : PyVal) : PyVal :=
  match v with
  | .str s => if isDigitStr s then .int (intOfDigits s) else .str s
  | w => w

/-- The `elif periodo_id is None` fallback of `select_periodo_id`
(lines 357-361): take the last available period and normalise it. -/
def periodoFallback (periodos_list : PyVal) : CollectM PyVal :=
  cbind (clift (pyLast periodos_list)) fun p =>
  cret (periodoNormalize p)

/-- `select_periodo_id` (lines 327-366): raise when no periods, one LLM
call, parse; an unparseable reply falls back to the LAST period; a final
`isinstance(..., int)` check raises on anything non-int. -/
def select_periodo_id (o : CollectorOracle) (agregados_metadados task : PyVal) :
    CollectM PyVal :=
  cbind (clift (pyGetD agregados_metadados "periodos_disponiveis" (PyVal.dict []))) fun pd =>
  cbind (clift (pyGetD pd "periodos" (PyVal.list []))) fun periodos_list =>
  if pyTruthy periodos_list = false then
    cthrow "Nenhum período disponível para este agregado"
  else
  cbind (cemit (Ev.llmCall "periodo")) fun _ =>
  cbind (clift (o.invokePeriodo periodos_list task)) fun response =>
  cbind (match parse_assunto_collector_result o.jsonLoads response with
    | Option.none => periodoFallback periodos_list
    | some PyVal.none => periodoFallback periodos_list
    | some v => cret (periodoNormalize v)) fun periodo_id =>
  if pyIsInt periodo_id then cret periodo_id
  else cthrow ("Período inválido: " ++ pyStr periodo_id)

/-- Code gathering of `select_territorio_id` (lines 377-387): flatten the
`nivelTerritorial` dict values (lists extended, truthy scalars appended),
or take the value itself when it is a list. -/
def gatherCodes : PyVal → List PyVal
  | .dict kvs =>
    kvs.foldl (fun acc kv =>
      match kv.2 with
      | .list xs => acc ++ xs
      | v => if pyTruthy v then acc ++ [v] else acc) []
  | .list xs => xs
  | _ => []

/-- Code cleaning of `select_territorio_id` (lines 389-394): keep truthy
codes with nonempty `str(code).strip()`, map to the stripped string, and
deduplicate keeping first occurrences (`dict.fromkeys`). -/
def cleanCodes (raw : List PyVal) : List String :=
  dedupFirst ((raw.filter (fun c => pyTruthy c && !(pyStrip (pyStr c)).data.isEmpty))
    |>.map (fun c => pyStrip (pyStr c)))

/-- The per-code tool loop of `select_territorio_id` (lines 399-405): one
`ibge_nivel_geografico_id_search` REST call per code, collecting results
in order. -/
def territorioLoop (o : CollectorOracle) : List String → CollectM (List PyVal)
  | [] => cret []
  | c :: cs =>
    cbind (cemit (Ev.restCall "ibge_nivel_geografico_id_search")) fun _ =>
    cbind (clift (o.nivelSearch c)) fun r =>
    cbind (territorioLoop o cs) fun rs =>
    cret (r :: rs)

/-- `select_territorio_id` (lines 369-444): gather and resolve territorial
codes, one LLM call, parse; an unparseable reply falls back to the default
`"N1[all]"` (Brazil). -/
def select_territorio_id (o : CollectorOracle) (agregados_metadados task : PyVal) :
    CollectM String :=
  cbind (clift (pyGetD agregados_metadados "metadados" (PyVal.dict []))) fun md =>
  cbind (clift (pyGetD md "nivelTerritorial" (PyVal.dict []))) fun nt =>
  if pyTruthy nt = false then
    cthrow "Nenhum nível territorial disponível para este agregado"
  else
  let codes := cleanCodes (gatherCodes nt)
  if codes.isEmpty then cthrow "Nenhum código territorial válido encontrado"
  else
  cbind (territorioLoop o codes) fun detalhados =>
  if detalhados.isEmpty then
    cthrow "Não foi possível resolver nenhum código territorial via ferramenta"
  else
  cbind (cemit (Ev.llmCall "territorio")) fun _ =>
  cbind (clift (o.invokeTerritorio detalhados task)) fun response =>
  match parse_territorio_collector_result o.jsonLoads o.regexFindJson response with
  | some t => cret t
  | Option.none => cret "N1[all]"

/-- `select_variavel_id` (lines 447-469): raise when no variables, one LLM
call, parse, raise on `None`. -/
def select_variavel_id (o : CollectorOracle) (agregados_metadados task : PyVal) :
    CollectM PyVal :=
  cbind (clift (pyGetD agregados_metadados "metadados" (PyVal.dict []))) fun md =>
  cbind (clift (pyGetD md "variaveis" (PyVal.list []))) fun variaveis =>
  if pyTruthy variaveis = false then
    cthrow "Nenhuma variável disponível para este agregado"
  else
  cbind (cemit (Ev.llmCall "variavel")) fun _ =>
  cbind (clift (o.invokeVariavel variaveis task)) fun response =>
  match parse_assunto_collector_result o.jsonLoads response with
  | Option.none => cthrow "Não foi possível selecionar a variável"
  | some PyVal.none => cthrow "Não foi possível selecionar a variável"
  | some v => cret v

/-- `get_classificacao_id` (lines 472-479): **no LLM call** — returns the
`"id"` of the first entry of `metadados["classificacoes"]`, or `None` when
there are none.  A truthy non-list value makes `len(...)`/indexing raise
(caught by the node's `try`). -/
def get_classificacao_id (agregados_metadados : PyVal) : CollectM PyVal :=
  cbind (clift (pyGetD agregados_metadados "metadados" (PyVal.dict []))) fun md =>
  cbind (clift (pyGetD md "classificacoes" (PyVal.list []))) fun cls =>
  if pyTruthy cls = false then cret PyVal.none
  else
    match cls with
    | PyVal.list [] => cret PyVal.none
    | PyVal.list (c :: _) => cbind (clift (pyGetD c "id" PyVal.none)) fun i => cret i
    | _ => cthrow "TypeError: object is not a list of classificacoes"

/-- `get_ibge_data` (lines 482-506): the final data request.  The
`territorio_id is None` guard is vacuous here (`select_territorio_id`
always returns a string); `classificacao` is added to the params only when
not `None`, which the oracle observes through the `PyVal.none` argument. -/
def get_ibge_data (o : CollectorOracle) (agregados_id periodo_id variavel_id : PyVal)
    (territorio_id : String) (classificacao_id : PyVal) : CollectM PyVal :=
  cbind (cemit Ev.dataRequest) fun _ =>
  clift (o.dadosRequest agregados_id periodo_id variavel_id territorio_id classificacao_id)

/-! ## `ibge_results_to_dataframe` (node.py lines 175-248)

The nested loops flattening the raw IBGE payload into tabular rows.  The
CSV side effect (lines 238-246) touches only the filesystem, not the
returned frame, and is outside the model; `assunto_nome` feeds only that
filename. -/

structure IbgeRow where
  variavel_id : PyVal
  variavel : PyVal
  unidade : PyVal
  classificacao_id : PyVal
  classificacao : PyVal
  categoria_id : Option String
  categoria : Option PyVal
  localidade_id : PyVal
  localidade : PyVal
  nivel_id : PyVal
  nivel : PyVal
  periodo : String
  valor : Option Rat

/-- The `valor in ("...", None)` test of line 229. -/
def isDotsOrNone : PyVal → Bool
  | .str s => s == "..."
  | .none => true
  | _ => false

/-- Rows of one `serie_item` (lines 204-230): one row per
`(periodo, valor)` entry of the series dict; `valor` is `None` for `"..."`
or `None` raw values and `float(valor)` otherwise (raising when the raw
value cannot convert). -/
def mkSerieRow (pyFloat : PyVal → Option Rat) (var_id var_nome unidade : PyVal)
    (class_id class_nome : PyVal) (categoria_id : Option String)
    (categoria : Option PyVal) (local_id local_nome nivel_id nivel_nome : PyVal)
    (pe : String × PyVal) : Except String IbgeRow := do
  let v ← if isDotsOrNone pe.2 then pure (Option.none : Option Rat)
          else match pyFloat pe.2 with
               | some q => pure (some q)
               | Option.none =>
                 Except.error "ValueError: could not convert string to float"
  pure { variavel_id := var_id, variavel := var_nome, unidade := unidade,
         classificacao_id := class_id, classificacao := class_nome,
         categoria_id := categoria_id, categoria := categoria,
         localidade_id := local_id, localidade := local_nome,
         nivel_id := nivel_id, nivel := nivel_nome,
         periodo := pe.1, valor := v }

/-- The conditional attribute access `nivel.get(k) if nivel else None` of
lines 210-211. -/
def nivelField (nivel : PyVal) (k : String) : Except String PyVal :=
  if pyTruthy nivel then pyGetD nivel k PyVal.none else pure PyVal.none

def serieRows (pyFloat : PyVal → Option Rat) (var_id var_nome unidade : PyVal)
    (class_id class_nome : PyVal) (categoria_id : Option String)
    (categoria : Option PyVal) (serie_item : PyVal) :
    Except String (List IbgeRow) := do
  let localidade ← pyGetD serie_item "localidade" (.dict [])
  let local_id ← pyGetD localidade "id" .none
  let local_nome ← pyGetD localidade "nome" .none
  let nivel ← pyGetD localidade "nivel" .none
  let nivel_id ← nivelField nivel "id"
  let nivel_nome ← nivelField nivel "nome"
  let serie ← pyGetD serie_item "serie" (.dict [])
  match serie with
  | .dict entries =>
    entries.mapM (mkSerieRow pyFloat var_id var_nome unidade class_id class_nome
      categoria_id categoria local_id local_nome nivel_id nivel_nome)
  | _ => Except.error "AttributeError: object has no attribute items"

/-- The first-category extraction of lines 199-202:
`next(iter(categoria.items()))` when `categoria` is a nonempty dict, else
`(None, None)`. -/
def primeiraCategoria (categoria : PyVal) : Option String × Option PyVal :=
  match categoria with
  | .dict (kv :: _) => (some kv.1, some kv.2)
  | _ => (Option.none, Option.none)

def classRows (pyFloat : PyVal → Option Rat) (var_id var_nome unidade : PyVal)
    (resultado classificacao : PyVal) : Except String (List IbgeRow) := do
  let class_id ← pyGetD classificacao "id" .none
  let class_nome ← pyGetD classificacao "nome" .none
  let categoria ← pyGetD classificacao "categoria" (.dict [])
  let cat := primeiraCategoria categoria
  let series ← pyGetD resultado "series" (.list [])
  match series with
  | .list ss => do
    let rss ← ss.mapM (serieRows pyFloat var_id var_nome unidade class_id
      class_nome cat.1 cat.2)
    pure rss.flatten
  | _ => Except.error "TypeError: series is not iterable"

/-- Rows of one `resultado` (lines 192-230).  With an empty
`classificacoes` list the inner loops never run: the resultado contributes
no rows. -/
def resultadoRows (pyFloat : PyVal → Option Rat) (var_id var_nome unidade : PyVal)
    (resultado : PyVal) : Except String (List IbgeRow) := do
  let classificacoes ← pyGetD resultado "classificacoes" (.list [])
  match classificacoes with
  | .list cls => do
    let rss ← cls.mapM (classRows pyFloat var_id var_nome unidade resultado)
    pure rss.flatten
  | _ => Except.error "TypeError: classificacoes is not iterable"

/-- Rows of one variable entry (lines 187-230). -/
def varRows (pyFloat : PyVal → Option Rat) (var : PyVal) :
    Except String (List IbgeRow) := do
  let var_id ← pyGetD var "id" .none
  let var_nome ← pyGetD var "variavel" .none
  let unidade ← pyGetD var "unidade" .none
  let resultados ← pyGetD var "resultados" (.list [])
  match resultados with
  | .list rs => do
    let rss ← rs.mapM (resultadoRows pyFloat var_id var_nome unidade)
    pure rss.flatten
  | _ => Except.error "TypeError: resultados is not iterable"

/-- `ibge_results_to_dataframe` (lines 175-248), as the list of rows of
the returned DataFrame. -/
def ibge_results_to_dataframe (pyFloat : PyVal → Option Rat)
    (results : List PyVal) (_assunto_nome : String) :
    Except String (List IbgeRow) := do
  let rss ← results.mapM (varRows pyFloat)
  pure rss.flatten

/-! ## The collector node (node.py lines 21-167) -/

/-- The values resolved by the nine pipeline steps of `collector_node`. -/
structure PipelineOut where
  assunto_id : PyVal
  agregados_id : PyVal
  periodo_id : PyVal
  territorio_id : String
  variavel_id : PyVal
  classificacao_id : PyVal
  results : PyVal

/-- The DataFrame construction of lines 93-97:
`collector_step['parameters']['concept']` / `['territory']` raw indexing
(KeyError when missing) feeding the filename, then the flattening. -/
def dfStep (o : CollectorOracle) (collector_step : List (String × PyVal))
    (results : PyVal) : CollectM (List IbgeRow) :=
  cbind (clift (pyKVIndex (PyVal.dict collector_step) "parameters")) fun params =>
  cbind (clift (pyKVIndex params "concept")) fun concept =>
  cbind (clift (pyKVIndex params "territory")) fun territory =>
  clift (ibge_results_to_dataframe o.pyFloat
    (match results with | .list xs => xs | v => [v])
    (replaceSpaces (pyStr concept ++ "_" ++ pyStr territory)))

/-- Steps 1-9 of the `try` block of `collector_node` (lines 49-97), each
completed resolution logged (modelled as a `resolved` event, matching the
`logger.info` lines). -/
def collectorPipeline (o : CollectorOracle) (collector_step : List (String × PyVal))
    (task user_question : PyVal) : CollectM PipelineOut :=
  cbind (get_assunto_id o user_question) fun assunto_id =>
  cbind (cemit (Ev.resolved "assunto")) fun _ =>
  cbind (get_agregados_from_assunto o assunto_id) fun agregados =>
  cbind (select_agregado_id o agregados task) fun agregados_id =>
  cbind (cemit (Ev.resolved "agregado")) fun _ =>
  cbind (get_agregado_metadata o agregados_id) fun agregados_metadados =>
  cbind (select_periodo_id o agregados_metadados task) fun periodo_id =>
  cbind (cemit (Ev.resolved "periodo")) fun _ =>
  cbind (select_territorio_id o agregados_metadados task) fun territorio_id =>
  cbind (cemit (Ev.resolved "territorio")) fun _ =>
  cbind (select_variavel_id o agregados_metadados task) fun variavel_id =>
  cbind (cemit (Ev.resolved "variavel")) fun _ =>
  cbind (get_classificacao_id agregados_metadados) fun classificacao_id =>
  cbind (cemit (Ev.resolved "classificacao")) fun _ =>
  cbind (get_ibge_data o agregados_id periodo_id variavel_id territorio_id
    classificacao_id) fun results =>
  cbind (dfStep o collector_step results) fun _ =>
  cret { assunto_id, agregados_id, periodo_id, territorio_id, variavel_id,
         classificacao_id, results }

/-- The keyword arguments of the success-branch
`CollectorCompleteResult(...)` (lines 100-125). -/
def successCCRInput (out : PipelineOut) (task parameters filters : PyVal) :
    List (String × PyVal) := [
  ("success", .bool true),
  ("collected_data", if pyTruthy out.results then .list [out.results] else .list []),
  ("failed_variables", .list []),
  ("errors", .list []),
  ("metadata", .dict [("task", task), ("assunto_id", out.assunto_id),
    ("agregado_id", out.agregados_id), ("periodo_id", out.periodo_id),
    ("territorio_id", .str out.territorio_id), ("variavel_id", out.variavel_id),
    ("classificacao_id", out.classificacao_id)]),
  ("source_used", .dict [("name", .str "IBGE"),
    ("description", .str ("Agregados for assunto " ++ pyStr out.assunto_id))]),
  ("filters_applied", filters),
  ("task", task),
  ("parameters", parameters),
  ("assunto_id", out.assunto_id),
  ("agregado_id", out.agregados_id),
  ("periodo_id", out.periodo_id),
  ("territorio_id", .str out.territorio_id),
  ("variavel_id", out.variavel_id),
  ("classificacao_id", out.classificacao_id),
  ("raw_dados", match out.results with | .list xs => .list xs | v => .list [v])]

/-- The state dict returned by both branches of `collector_node`
(lines 134-141 and 160-167): `messages`, `execution_plan`, `analysis` and
`answer` pass through, `current_step` is incremented, `data` is the
`model_dump()` of the built result. -/
def frameReturn (state : AgentState) (r : CollectorCompleteResult) : AgentState :=
  { messages := state.messages
    execution_plan := state.execution_plan
    current_step := state.current_step + 1
    data := r.dump
    analysis := state.analysis
    answer := state.answer }

/-- The `try` block of `collector_node` (lines 49-141): pipeline, the
`parameters.get("filters", {})` evaluation, pydantic validation of the
success result, and the returned state. -/
def collectorTryBody (o : CollectorOracle) (state : AgentState)
    (collector_step : List (String × PyVal)) (task parameters user_question : PyVal) :
    CollectM AgentState :=
  cbind (collectorPipeline o collector_step task user_question) fun out =>
  cbind (clift (pyGetD parameters "filters" (PyVal.dict []))) fun filters =>
  cbind (clift (validateCCR o.now (successCCRInput out task parameters filters))) fun r =>
  cret (frameReturn state r)

/-- The `except` block of `collector_node` (lines 143-167).  Note that the
construction of the failure `CollectorCompleteResult` can itself raise
(e.g. on a non-dict `parameters` or a non-string `task`), in which case
the exception escapes the node. -/
def collectorExceptBranch (o : CollectorOracle) (state : AgentState)
    (task parameters : PyVal) (e : String) : Except String AgentState := do
  let failed_vars ← pyGetD parameters "variables" (PyVal.list [])
  let filters ← pyGetD parameters "filters" (PyVal.dict [])
  let r ← validateCCR o.now [
    ("success", .bool false),
    ("collected_data", .list []),
    ("failed_variables", failed_vars),
    ("errors", .list [.str e]),
    ("metadata", .dict [("task", task)]),
    ("source_used", .dict [("name", .str "collector"),
      ("description", .str "execution error")]),
    ("filters_applied", filters),
    ("task", task),
    ("parameters", parameters),
    ("collection_time", .str o.now)]
  pure (frameReturn state r)

/-- The step search of lines 32-35:
`next((s for s in plan if s.get("agent") == "collector"), None)`. -/
def findCollectorStep (plan : List (List (String × PyVal))) :
    Option (List (String × PyVal)) :=
  plan.find? (fun st =>
    match kvLookup st "agent" with
    | some v => v.isStr "collector"
    | Option.none => false)

/-- Whether the plan contains a collector step. -/
def hasCollectorStep (plan : List (List (String × PyVal))) : Bool :=
  (findCollectorStep plan).isSome

/-- `collector_node` (lines 21-167): locate the collector step (raising
`ValueError` when absent), run the `try` block, and on an exception run
the `except` block. -/
def collector_node (o : CollectorOracle) (state : AgentState) :
    List Ev × Except String AgentState :=
  match findCollectorStep state.execution_plan with
  | Option.none => ([], Except.error "Collector step not found in execution plan")
  | some collector_step =>
    let task := (kvLookup collector_step "task").getD (PyVal.str "")
    let parameters := (kvLookup collector_step "parameters").getD (PyVal.dict [])
    let user_question := extract_last_user_question state.messages
    match collectorTryBody o state collector_step task parameters user_question with
    | (evs, Except.ok s') => (evs, Except.ok s')
    | (evs, Except.error e) =>
      match collectorExceptBranch o state task parameters e with
      | Except.ok s' => (evs, Except.ok s')
      | Except.error e2 => (evs, Except.error e2)

/-! ## The planner node (`src/agents/planner/node.py`) -/

/-- A partial state update as returned by a LangGraph node: only the keys
the node returns are merged into the state. -/
structure StateUpdate where
  messages : Option (List Message) := Option.none
  execution_plan : Option (List (List (String × PyVal))) := Option.none
  current_step : Option Nat := Option.none
  data : Option PyVal := Option.none
  analysis : Option PyVal := Option.none
  answer : Option String := Option.none

/-- LangGraph channel merge: returned keys overwrite, the rest pass
through. -/
def applyUpdate (s : AgentState) (u : StateUpdate) : AgentState :=
  { messages := u.messages.getD s.messages
    execution_plan := u.execution_plan.getD s.execution_plan
    current_step := u.current_step.getD s.current_step
    data := u.data.getD s.data
    analysis := u.analysis.getD s.analysis
    answer := u.answer.getD s.answer }

/-- The planner's environment.  `invoke` collapses
`planner_agent.invoke` together with the result-shape normalisation and
`ExecutionPlan.model_validate` of planner/node.py lines 23-49: it yields
the validated plan as a list of step dicts
(`[step.model_dump() for step in ...]`, line 63) or the exception raised
anywhere inside the `try`. -/
structure PlannerOracle where
  invoke : PyVal → Except String (List (List (String × PyVal)))

/-- `planner_node` (planner/node.py lines 11-69).
`state["messages"][-1].content` (line 14) sits OUTSIDE the `try` and
raises on an empty message list; the broad `except` (lines 67-69) logs and
RE-RAISES `ValueError(f"Planner error: {e}")` rather than returning a
failure payload. -/
def planner_node (po : PlannerOracle) (state : AgentState) :
    Except String StateUpdate :=
  match state.messages.getLast? with
  | Option.none => Except.error "IndexError: list index out of range"
  | some last =>
    match po.invoke last.content with
    | Except.ok plan =>
      Except.ok { execution_plan := some plan, current_step := some 0 }
    | Except.error e => Except.error ("Planner error: " ++ e)

/-! ## The communicator node (`src/agents/communicator/node.py`)

The node is NOT part of the compiled graph (see `construct_graph` below);
it is modelled for the error-handling claim.  Its `try` body (lines 21-56:
`transform_ibge_to_dataframe` plus response assembly, all pure
pandas/json code over the state) is collapsed into the oracle outcome
`tryOutcome collector_data user_question`; the claims about the node
concern only the control flow of its single `try/except`, which is
modelled exactly: the `except` branch (lines 73-106) builds a static error
payload (plain dict plus `json.dumps`, which cannot itself raise) and
returns it. -/

structure CommOracle where
  tryOutcome : PyVal → String → Except String String

/-- The state dict returned by `communicator_node`; it returns more keys
than the `AgentState` channels (`dataframe`, `communication_result`), of
which the model keeps the `success` flag. -/
structure CommunicatorReturn where
  messages : List Message
  execution_plan : List (List (String × PyVal))
  current_step : Nat
  data : PyVal
  analysis : PyVal
  answer : String
  comm_success : Bool

/-- Abbreviated rendering of
`json.dumps(error_response, indent=2)` (lines 76-89); no claim depends on
the exact text, only on it being the returned `answer`. -/
def errorAnswer (e : String) : String :=
  "\x7b\"erro\": true, \"mensagem\": \"Erro ao transformar dados em DataFrame: "
    ++ e ++ "\"\x7d"

/-- `communicator_node` (communicator/node.py lines 15-106).  The
user-question extraction (lines 16-20) sits BEFORE the `try`:
`msg.content.strip()` raises on a truthy non-string content, and that
exception propagates.  Past it, both branches return a state with
`current_step` incremented and an appended `AIMessage`. -/
def communicator_node (o : CommOracle) (state : AgentState) :
    Except String CommunicatorReturn :=
  match (match state.messages.reverse.find? (fun m => pyTruthy m.content) with
         | some m =>
           (match m.content with
            | .str s => Except.ok (pyStrip s)
            | _ => Except.error "AttributeError: object has no attribute strip")
         | Option.none => Except.ok "") with
  | Except.error e => Except.error e
  | Except.ok user_question =>
    match o.tryOutcome state.data user_question with
    | Except.ok final_response =>
      Except.ok
        { messages := state.messages ++ [⟨MsgKind.ai, .str final_response⟩]
          execution_plan := state.execution_plan
          current_step := state.current_step + 1
          data := state.data
          analysis := state.analysis
          answer := final_response
          comm_success := true }
    | Except.error e =>
      Except.ok
        { messages := state.messages ++ [⟨MsgKind.ai, .str (errorAnswer e)⟩]
          execution_plan := state.execution_plan
          current_step := state.current_step + 1
          data := state.data
          analysis := state.analysis
          answer := errorAnswer e
          comm_success := false }

/-! ## The workflow graph (`src/workflow/graph.py`) -/

/-- LangGraph's `END` sentinel (`langgraph.constants.END`). -/
def ENDNode : String := "__end__"

/-- A `StateGraph` as assembled by `add_node` / `add_edge` /
`set_entry_point`. -/
structure StateGraphDef where
  nodes : List String
  edges : List (String × String)
  entry : String

/-- `construct_graph` (graph.py lines 9-19): two nodes are added —
`"planner"` and `"collector"` — with edges planner → collector → END and
entry point planner.  `communicator_node` is imported (line 4) but never
added. -/
def construct_graph : StateGraphDef :=
  { nodes := ["planner", "collector"]
    edges := [("planner", "collector"), ("collector", ENDNode)]
    entry := "planner" }

/-- The unique outgoing edge of a node (the graph is linear: one
`add_edge` per node). -/
def nextNode (g : StateGraphDef) (n : String) : Option String :=
  (g.edges.find? (fun e => e.1 == n)).map (·.2)

/-- The node sequence of a compiled linear graph, chased from a start
node with fuel. -/
def execOrder (g : StateGraphDef) : Nat → String → List String
  | 0, _ => []
  | fuel + 1, n =>
    if n == ENDNode then []
    else n :: (match nextNode g n with
               | some m => execOrder g fuel m
               | Option.none => [])

/-- The node sequence of one `compiled.invoke(...)` run. -/
def compiledOrder (g : StateGraphDef) : List String :=
  execOrder g (g.nodes.length + 1) g.entry

/-- All node environments of a graph run. -/
structure Oracles where
  planner : PlannerOracle
  collector : CollectorOracle

/-- Dispatch one node of the compiled graph.  The planner returns a
partial update that LangGraph merges; the collector returns all six
channels (a full state). -/
def runNode (os : Oracles) (name : String) (s : AgentState) :
    Except String AgentState :=
  if name == "planner" then (planner_node os.planner s).map (applyUpdate s)
  else if name == "collector" then (collector_node os.collector s).2
  else Except.error ("unknown node: " ++ name)

/-- One synchronous `compiled.invoke` run: nodes execute one at a time in
edge order (LangGraph's `invoke` on a linear graph is sequential — each
node call returns before the next starts).  The trace records each node
together with the state it starts from; an uncaught node exception aborts
the run. -/
def runFrom (os : Oracles) (g : StateGraphDef) :
    Nat → String → AgentState →
      List (String × AgentState) × Except String AgentState
  | 0, _, _ => ([], Except.error "GraphRecursionError")
  | fuel + 1, n, s =>
    if n == ENDNode then ([], Except.ok s)
    else
      match runNode os n s with
      | Except.error e => ([(n, s)], Except.error e)
      | Except.ok s' =>
        match nextNode g n with
        | Option.none => ([(n, s)], Except.ok s')
        | some m =>
          let rest := runFrom os g fuel m s'
          ((n, s) :: rest.1, rest.2)

/-- `construct_graph().invoke(s0)` with its execution trace. -/
def graphInvoke (os : Oracles) (s0 : AgentState) :
    List (String × AgentState) × Except String AgentState :=
  runFrom os construct_graph (construct_graph.nodes.length + 2)
    construct_graph.entry s0

/-! ## Event-trace lemmas for the collector pipeline -/

/-- Resolution events: the six `resolved` markers and the final data
request. -/
def isResolutionEv : Ev → Bool
  | .resolved _ => true
  | .dataRequest => true
  | _ => false

/-- LLM-call events. -/
def isLlmEv : Ev → Bool
  | .llmCall _ => true
  | _ => false

/-- The resolution events of a run, in order. -/
def resTrace (evs : List Ev) : List Ev := evs.filter isResolutionEv

/-- The LLM calls of a run, in order. -/
def llmTrace (evs : List Ev) : List Ev := evs.filter isLlmEv

/-- The full resolution order of a successful collector run. -/
def canonicalResolution : List Ev :=
  [.resolved "assunto", .resolved "agregado", .resolved "periodo",
   .resolved "territorio", .resolved "variavel", .resolved "classificacao",
   .dataRequest]

/-- The full LLM-call order of a successful collector run: five calls, none
for the classification step. -/
def canonicalLlm : List Ev :=
  [.llmCall "assunto", .llmCall "agregado", .llmCall "periodo",
   .llmCall "territorio", .llmCall "variavel"]

theorem cbind_snd {α β : Type} (x : CollectM α) (f : α → CollectM β) :
    (cbind x f).2 = (match x.2 with
      | Except.ok a => (f a).2
      | Except.error e => Except.error e) := by
  rcases x with ⟨evs, r⟩
  cases r <;> simp [cbind]

@[simp] theorem resTrace_append (a b : List Ev) :
    resTrace (a ++ b) = resTrace a ++ resTrace b := by
  simp [resTrace]

@[simp] theorem llmTrace_append (a b : List Ev) :
    llmTrace (a ++ b) = llmTrace a ++ llmTrace b := by
  simp [llmTrace]

@[simp] theorem resTrace_nil : resTrace [] = [] := rfl
@[simp] theorem llmTrace_nil : llmTrace [] = [] := rfl
@[simp] theorem resTrace_llm_cons (s : String) (evs : List Ev) :
    resTrace (Ev.llmCall s :: evs) = resTrace evs := by simp [resTrace, isResolutionEv]
@[simp] theorem resTrace_rest_cons (s : String) (evs : List Ev) :
    resTrace (Ev.restCall s :: evs) = resTrace evs := by simp [resTrace, isResolutionEv]
@[simp] theorem resTrace_resolved_cons (s : String) (evs : List Ev) :
    resTrace (Ev.resolved s :: evs) = Ev.resolved s :: resTrace evs := by
  simp [resTrace, isResolutionEv]
@[simp] theorem resTrace_dataRequest_cons (evs : List Ev) :
    resTrace (Ev.dataRequest :: evs) = Ev.dataRequest :: resTrace evs := by
  simp [resTrace, isResolutionEv]
@[simp] theorem llmTrace_llm_cons (s : String) (evs : List Ev) :
    llmTrace (Ev.llmCall s :: evs) = Ev.llmCall s :: llmTrace evs := by
  simp [llmTrace, isLlmEv]
@[simp] theorem llmTrace_rest_cons (s : String) (evs : List Ev) :
    llmTrace (Ev.restCall s :: evs) = llmTrace evs := by simp [llmTrace, isLlmEv]
@[simp] theorem llmTrace_resolved_cons (s : String) (evs : List Ev) :
    llmTrace (Ev.resolved s :: evs) = llmTrace evs := by simp [llmTrace, isLlmEv]
@[simp] theorem llmTrace_dataRequest_cons (evs : List Ev) :
    llmTrace (Ev.dataRequest :: evs) = llmTrace evs := by simp [llmTrace, isLlmEv]

theorem dataRequest_mem_resTrace (evs : List Ev) :
    Ev.dataRequest ∈ evs ↔ Ev.dataRequest ∈ resTrace evs := by
  simp [resTrace, List.mem_filter, isResolutionEv]

theorem get_assunto_id_events (o : CollectorOracle) (q : PyVal) :
    (get_assunto_id o q).1 = [Ev.llmCall "assunto"] := by
  unfold get_assunto_id
  cases h : o.invokeAssunto q with
  | error e => simp [cbind, cemit, clift, h]
  | ok r =>
    cases hp : parse_assunto_collector_result o.jsonLoads r with
    | none => simp [cbind, cemit, clift, cthrow, h, hp]
    | some v => cases v <;> simp [cbind, cemit, clift, cthrow, cret, h, hp]

theorem get_agregados_from_assunto_events (o : CollectorOracle) (a : PyVal) :
    (get_agregados_from_assunto o a).1 = [Ev.restCall "ibge_agregados_request"] := by
  unfold get_agregados_from_assunto
  cases h : o.agregadosRequest a <;> simp [cbind, cemit, clift, h]

theorem get_agregado_metadata_events (o : CollectorOracle) (a : PyVal) :
    (get_agregado_metadata o a).1 = [Ev.restCall "ibge_agregado_metadados_request"] := by
  unfold get_agregado_metadata
  cases h : o.metadadosRequest a <;> simp [cbind, cemit, clift, h]

theorem get_ibge_data_events (o : CollectorOracle) (a b c : PyVal) (t : String)
    (d : PyVal) : (get_ibge_data o a b c t d).1 = [Ev.dataRequest] := by
  unfold get_ibge_data
  cases h : o.dadosRequest a b c t d <;> simp [cbind, cemit, clift, h]

theorem select_agregado_id_trace (o : CollectorOracle) (ag task : PyVal) :
    (select_agregado_id o ag task).1 = [Ev.llmCall "agregado"] ∨
    ((select_agregado_id o ag task).1 = [] ∧
      ∃ e, (select_agregado_id o ag task).2 = Except.error e) := by
  unfold select_agregado_id
  cases h1 : pyGetD ag "temas_encontrados" (PyVal.list [PyVal.dict []]) with
  | error e => exact Or.inr (by simp [cbind, clift, h1])
  | ok temas =>
    cases h2 : pyIndex0 temas with
    | error e => exact Or.inr (by simp [cbind, clift, h1, h2])
    | ok tema0 =>
      cases h3 : pyGetD tema0 "agregados" (PyVal.list []) with
      | error e => exact Or.inr (by simp [cbind, clift, h1, h2, h3])
      | ok lst =>
        cases h4 : pyTruthy lst with
        | false => exact Or.inr (by simp [cbind, clift, cthrow, h1, h2, h3, h4])
        | true =>
          left
          cases h5 : o.invokeAgregado lst task with
          | error e => simp [cbind, cemit, clift, h1, h2, h3, h4, h5]
          | ok r =>
            cases hp : parse_assunto_collector_result o.jsonLoads r with
            | none => simp [cbind, cemit, clift, cthrow, h1, h2, h3, h4, h5, hp]
            | some v =>
              cases v <;>
                simp [cbind, cemit, clift, cthrow, cret, h1, h2, h3, h4, h5, hp] <;>
                (try split) <;> simp [cret, cthrow]

theorem periodoFallback_events (v : PyVal) : (periodoFallback v).1 = [] := by
  unfold periodoFallback
  cases hl : pyLast v <;> simp [cbind, clift, cret, hl]

theorem ite_cret_cthrow_events {α : Type} {c : Prop} [Decidable c] (x : α)
    (s : String) : (if c then cret x else cthrow s).1 = [] := by
  split <;> rfl

theorem select_periodo_id_trace (o : CollectorOracle) (md task : PyVal) :
    (select_periodo_id o md task).1 = [Ev.llmCall "periodo"] ∨
    ((select_periodo_id o md task).1 = [] ∧
      ∃ e, (select_periodo_id o md task).2 = Except.error e) := by
  unfold select_periodo_id
  cases h1 : pyGetD md "periodos_disponiveis" (PyVal.dict []) with
  | error e => exact Or.inr (by simp [cbind, clift, h1])
  | ok pd =>
    cases h2 : pyGetD pd "periodos" (PyVal.list []) with
    | error e => exact Or.inr (by simp [cbind, clift, h1, h2])
    | ok periodos =>
      cases h3 : pyTruthy periodos with
      | false => exact Or.inr (by simp [cbind, clift, cthrow, h1, h2, h3])
      | true =>
        left
        cases h4 : o.invokePeriodo periodos task with
        | error e => simp [cbind, cemit, clift, h1, h2, h3, h4]
        | ok r =>
          cases hp : parse_assunto_collector_result o.jsonLoads r with
          | none =>
            cases hl : pyLast periodos with
            | error e =>
              simp [cbind, cemit, clift, periodoFallback, h1, h2, h3, h4, hp, hl]
            | ok p =>
              simp [cbind, cemit, clift, cret, periodoFallback, h1, h2, h3, h4,
                hp, hl]
              split <;> rfl
          | some v =>
            cases v with
            | none =>
              cases hl : pyLast periodos with
              | error e =>
                simp [cbind, cemit, clift, periodoFallback, h1, h2, h3, h4, hp, hl]
              | ok p =>
                simp [cbind, cemit, clift, cret, periodoFallback, h1, h2, h3, h4,
                  hp, hl]
                split <;> rfl
            | bool b =>
              simp [cbind, cemit, clift, cret, h1, h2, h3, h4, hp]
              split <;> rfl
            | int n =>
              simp [cbind, cemit, clift, cret, h1, h2, h3, h4, hp]
              split <;> rfl
            | str s =>
              simp [cbind, cemit, clift, cret, h1, h2, h3, h4, hp]
              split <;> rfl
            | list xs =>
              simp [cbind, cemit, clift, cret, h1, h2, h3, h4, hp]
              split <;> rfl
            | dict kvs =>
              simp [cbind, cemit, clift, cret, h1, h2, h3, h4, hp]
              split <;> rfl

theorem select_variavel_id_trace (o : CollectorOracle) (md task : PyVal) :
    (select_variavel_id o md task).1 = [Ev.llmCall "variavel"] ∨
    ((select_variavel_id o md task).1 = [] ∧
      ∃ e, (select_variavel_id o md task).2 = Except.error e) := by
  unfold select_variavel_id
  cases h1 : pyGetD md "metadados" (PyVal.dict []) with
  | error e => exact Or.inr (by simp [cbind, clift, h1])
  | ok m =>
    cases h2 : pyGetD m "variaveis" (PyVal.list []) with
    | error e => exact Or.inr (by simp [cbind, clift, h1, h2])
    | ok vs =>
      cases h3 : pyTruthy vs with
      | false => exact Or.inr (by simp [cbind, clift, cthrow, h1, h2, h3])
      | true =>
        left
        cases h4 : o.invokeVariavel vs task with
        | error e => simp [cbind, cemit, clift, h1, h2, h3, h4]
        | ok r =>
          cases hp : parse_assunto_collector_result o.jsonLoads r with
          | none => simp [cbind, cemit, clift, cthrow, h1, h2, h3, h4, hp]
          | some v =>
            cases v <;> simp [cbind, cemit, clift, cthrow, cret, h1, h2, h3, h4, hp]

@[simp] theorem isResolutionEv_llmCall (s : String) :
    isResolutionEv (.llmCall s) = false := rfl
@[simp] theorem isResolutionEv_restCall (s : String) :
    isResolutionEv (.restCall s) = false := rfl
@[simp] theorem isResolutionEv_resolved (s : String) :
    isResolutionEv (.resolved s) = true := rfl
@[simp] theorem isResolutionEv_dataRequest :
    isResolutionEv .dataRequest = true := rfl
@[simp] theorem isLlmEv_llmCall (s : String) : isLlmEv (.llmCall s) = true := rfl
@[simp] theorem isLlmEv_restCall (s : String) : isLlmEv (.restCall s) = false := rfl
@[simp] theorem isLlmEv_resolved (s : String) : isLlmEv (.resolved s) = false := rfl
@[simp] theorem isLlmEv_dataRequest : isLlmEv .dataRequest = false := rfl

theorem territorioLoop_trace (o : CollectorOracle) (cs : List String) :
    resTrace (territorioLoop o cs).1 = [] ∧ llmTrace (territorioLoop o cs).1 = [] := by
  induction cs with
  | nil => exact ⟨rfl, rfl⟩
  | cons c rest ih =>
    cases h : o.nivelSearch c with
    | error e =>
      simp [territorioLoop, cbind, cemit, clift, h, resTrace, llmTrace]
    | ok r =>
      rcases hx : territorioLoop o rest with ⟨evs, out⟩
      rw [hx] at ih
      cases out <;>
        simp_all [territorioLoop, cbind, cemit, clift, cret, h, hx,
          resTrace, llmTrace]

theorem select_territorio_id_trace (o : CollectorOracle) (md task : PyVal) :
    resTrace (select_territorio_id o md task).1 = [] ∧
    (llmTrace (select_territorio_id o md task).1 = [Ev.llmCall "territorio"] ∨
     (llmTrace (select_territorio_id o md task).1 = [] ∧
       ∃ e, (select_territorio_id o md task).2 = Except.error e)) := by
  unfold select_territorio_id
  cases h1 : pyGetD md "metadados" (PyVal.dict []) with
  | error e =>
    exact ⟨by simp [cbind, clift, h1], Or.inr ⟨by simp [cbind, clift, h1],
      e, by simp [cbind, clift, h1]⟩⟩
  | ok m =>
    cases h2 : pyGetD m "nivelTerritorial" (PyVal.dict []) with
    | error e =>
      exact ⟨by simp [cbind, clift, h1, h2], Or.inr ⟨by simp [cbind, clift, h1, h2],
        e, by simp [cbind, clift, h1, h2]⟩⟩
    | ok nt =>
      cases h3 : pyTruthy nt with
      | false =>
        exact ⟨by simp [cbind, clift, cthrow, h1, h2, h3],
          Or.inr ⟨by simp [cbind, clift, cthrow, h1, h2, h3],
            "Nenhum nível territorial disponível para este agregado",
            by simp [cbind, clift, cthrow, h1, h2, h3]⟩⟩
      | true =>
        cases h4 : (cleanCodes (gatherCodes nt)).isEmpty with
        | true =>
          exact ⟨by simp [cbind, clift, cthrow, h1, h2, h3, h4],
            Or.inr ⟨by simp [cbind, clift, cthrow, h1, h2, h3, h4],
              "Nenhum código territorial válido encontrado",
              by simp [cbind, clift, cthrow, h1, h2, h3, h4]⟩⟩
        | false =>
          rcases hloop : territorioLoop o (cleanCodes (gatherCodes nt)) with ⟨levs, lout⟩
          have hlt := territorioLoop_trace o (cleanCodes (gatherCodes nt))
          rw [hloop] at hlt
          have hres : resTrace levs = [] := hlt.1
          have hllm : llmTrace levs = [] := hlt.2
          cases lout with
          | error e =>
            exact ⟨by simp [cbind, clift, h1, h2, h3, h4, hloop, hres],
              Or.inr ⟨by simp [cbind, clift, h1, h2, h3, h4, hloop, hllm],
                e, by simp [cbind, clift, h1, h2, h3, h4, hloop]⟩⟩
          | ok detalhados =>
            cases h5 : detalhados.isEmpty with
            | true =>
              exact ⟨by simp [cbind, clift, cthrow, h1, h2, h3, h4, hloop, h5, hres],
                Or.inr ⟨by simp [cbind, clift, cthrow, h1, h2, h3, h4, hloop, h5, hllm],
                  "Não foi possível resolver nenhum código territorial via ferramenta",
                  by simp [cbind, clift, cthrow, h1, h2, h3, h4, hloop, h5]⟩⟩
            | false =>
              cases h6 : o.invokeTerritorio detalhados task with
              | error e =>
                exact ⟨by simp [cbind, cemit, clift, h1, h2, h3, h4, hloop, h5, h6, hres],
                  Or.inl (by simp [cbind, cemit, clift, h1, h2, h3, h4, hloop, h5, h6, hllm])⟩
              | ok r =>
                cases hp : parse_territorio_collector_result o.jsonLoads
                    o.regexFindJson r with
                | none =>
                  exact ⟨by simp [cbind, cemit, clift, cret, h1, h2, h3, h4,
                      hloop, h5, h6, hp, hres],
                    Or.inl (by simp [cbind, cemit, clift, cret, h1, h2, h3, h4,
                      hloop, h5, h6, hp, hllm])⟩
                | some t =>
                  exact ⟨by simp [cbind, cemit, clift, cret, h1, h2, h3, h4,
                      hloop, h5, h6, hp, hres],
                    Or.inl (by simp [cbind, cemit, clift, cret, h1, h2, h3, h4,
                      hloop, h5, h6, hp, hllm])⟩

theorem get_classificacao_id_events (md : PyVal) :
    (get_classificacao_id md).1 = [] := by
  unfold get_classificacao_id
  cases h1 : pyGetD md "metadados" (PyVal.dict []) with
  | error e => simp [cbind, clift, h1]
  | ok m =>
    cases h2 : pyGetD m "classificacoes" (PyVal.list []) with
    | error e => simp [cbind, clift, h1, h2]
    | ok cls =>
      cases h3 : pyTruthy cls with
      | false => simp [cbind, clift, cret, h1, h2, h3]
      | true =>
        cases cls with
        | list xs =>
          cases xs with
          | nil => simp [cbind, clift, cret, h1, h2, h3]
          | cons c rest =>
            cases h4 : pyGetD c "id" PyVal.none <;>
              simp [cbind, clift, cret, cthrow, h1, h2, h3, h4]
        | none => simp [cbind, clift, cthrow, h1, h2, h3]
        | bool b => simp [cbind, clift, cthrow, h1, h2, h3]
        | int n => simp [cbind, clift, cthrow, h1, h2, h3]
        | str s => simp [cbind, clift, cthrow, h1, h2, h3]
        | dict kvs => simp [cbind, clift, cthrow, h1, h2, h3]

theorem dfStep_events (o : CollectorOracle) (step : List (String × PyVal))
    (results : PyVal) : (dfStep o step results).1 = [] := by
  unfold dfStep
  cases h1 : pyKVIndex (PyVal.dict step) "parameters" with
  | error e => simp [cbind, clift, h1]
  | ok params =>
    cases h2 : pyKVIndex params "concept" with
    | error e => simp [cbind, clift, h1, h2]
    | ok concept =>
      cases h3 : pyKVIndex params "territory" with
      | error e => simp [cbind, clift, h1, h2, h3]
      | ok territory => simp [cbind, clift, h1, h2, h3]

theorem cbind_cemit {β : Type} (e : Ev) (g : Unit → CollectM β) :
    cbind (cemit e) g = (e :: (g ()).1, (g ()).2) := by
  simp [cbind, cemit]

theorem select_agregado_id_events_ok {o : CollectorOracle} {ag task v : PyVal}
    (h : (select_agregado_id o ag task).2 = Except.ok v) :
    (select_agregado_id o ag task).1 = [Ev.llmCall "agregado"] := by
  rcases select_agregado_id_trace o ag task with h1 | ⟨h1, e, he⟩
  · exact h1
  · rw [he] at h; cases h

theorem select_periodo_id_events_ok {o : CollectorOracle} {md task v : PyVal}
    (h : (select_periodo_id o md task).2 = Except.ok v) :
    (select_periodo_id o md task).1 = [Ev.llmCall "periodo"] := by
  rcases select_periodo_id_trace o md task with h1 | ⟨h1, e, he⟩
  · exact h1
  · rw [he] at h; cases h

theorem select_variavel_id_events_ok {o : CollectorOracle} {md task v : PyVal}
    (h : (select_variavel_id o md task).2 = Except.ok v) :
    (select_variavel_id o md task).1 = [Ev.llmCall "variavel"] := by
  rcases select_variavel_id_trace o md task with h1 | ⟨h1, e, he⟩
  · exact h1
  · rw [he] at h; cases h

theorem select_territorio_id_trace_ok {o : CollectorOracle} {md task : PyVal}
    {t : String} (h : (select_territorio_id o md task).2 = Except.ok t) :
    resTrace (select_territorio_id o md task).1 = [] ∧
    llmTrace (select_territorio_id o md task).1 = [Ev.llmCall "territorio"] := by
  obtain ⟨hr, hl | ⟨hl, e, he⟩⟩ := select_territorio_id_trace o md task
  · exact ⟨hr, hl⟩
  · rw [he] at h; cases h

/-- Master trace lemma for the collector pipeline: its resolution trace is
always an initial segment of the canonical order
subject → aggregate → period → territory → variable → classification →
data request, its LLM-call trace an initial segment of the five canonical
LLM calls, the data request happens exactly on complete runs, and a
complete run makes exactly five LLM calls. -/
theorem collectorPipeline_trace (o : CollectorOracle)
    (step : List (String × PyVal)) (task q : PyVal) :
    ∃ k m, k ≤ 7 ∧ m ≤ 5 ∧
      resTrace (collectorPipeline o step task q).1 = canonicalResolution.take k ∧
      llmTrace (collectorPipeline o step task q).1 = canonicalLlm.take m ∧
      (Ev.dataRequest ∈ (collectorPipeline o step task q).1 ↔ k = 7) ∧
      (k = 7 → m = 5) := by
  unfold collectorPipeline
  cases ha : (get_assunto_id o q).2 with
  | error e =>
    simp only [cbind_of_error _ ha]
    refine ⟨0, 1, by norm_num, by norm_num, ?_, ?_, ?_, by decide⟩ <;>
      simp [get_assunto_id_events, canonicalResolution, canonicalLlm,
        dataRequest_mem_resTrace]
  | ok assunto_id =>
  simp only [cbind_of_ok _ ha, cbind_cemit]
  cases hb : (get_agregados_from_assunto o assunto_id).2 with
  | error e =>
    simp only [cbind_of_error _ hb]
    refine ⟨1, 1, by norm_num, by norm_num, ?_, ?_, ?_, by decide⟩ <;>
      simp [get_assunto_id_events, get_agregados_from_assunto_events,
        canonicalResolution, canonicalLlm, dataRequest_mem_resTrace]
  | ok agregados =>
  simp only [cbind_of_ok _ hb]
  cases hc : (select_agregado_id o agregados task).2 with
  | error e =>
    simp only [cbind_of_error _ hc]
    rcases select_agregado_id_trace o agregados task with hce | ⟨hce, _, _⟩
    · refine ⟨1, 2, by norm_num, by norm_num, ?_, ?_, ?_, by decide⟩ <;>
        simp [get_assunto_id_events, get_agregados_from_assunto_events, hce,
          canonicalResolution, canonicalLlm, dataRequest_mem_resTrace]
    · refine ⟨1, 1, by norm_num, by norm_num, ?_, ?_, ?_, by decide⟩ <;>
        simp [get_assunto_id_events, get_agregados_from_assunto_events, hce,
          canonicalResolution, canonicalLlm, dataRequest_mem_resTrace]
  | ok agregados_id =>
  have hce := select_agregado_id_events_ok hc
  simp only [cbind_of_ok _ hc, cbind_cemit]
  cases hd : (get_agregado_metadata o agregados_id).2 with
  | error e =>
    simp only [cbind_of_error _ hd]
    refine ⟨2, 2, by norm_num, by norm_num, ?_, ?_, ?_, by decide⟩ <;>
      simp [get_assunto_id_events, get_agregados_from_assunto_events, hce,
        get_agregado_metadata_events, canonicalResolution, canonicalLlm,
        dataRequest_mem_resTrace]
  | ok md =>
  simp only [cbind_of_ok _ hd]
  cases he : (select_periodo_id o md task).2 with
  | error e =>
    simp only [cbind_of_error _ he]
    rcases select_periodo_id_trace o md task with hpe | ⟨hpe, _, _⟩
    · refine ⟨2, 3, by norm_num, by norm_num, ?_, ?_, ?_, by decide⟩ <;>
        simp [get_assunto_id_events, get_agregados_from_assunto_events, hce,
          get_agregado_metadata_events, hpe, canonicalResolution, canonicalLlm,
          dataRequest_mem_resTrace]
    · refine ⟨2, 2, by norm_num, by norm_num, ?_, ?_, ?_, by decide⟩ <;>
        simp [get_assunto_id_events, get_agregados_from_assunto_events, hce,
          get_agregado_metadata_events, hpe, canonicalResolution, canonicalLlm,
          dataRequest_mem_resTrace]
  | ok periodo_id =>
  have hpe := select_periodo_id_events_ok he
  simp only [cbind_of_ok _ he, cbind_cemit]
  cases hf : (select_territorio_id o md task).2 with
  | error e =>
    simp only [cbind_of_error _ hf]
    obtain ⟨htr, htl | ⟨htl, _, _⟩⟩ := select_territorio_id_trace o md task
    · refine ⟨3, 4, by norm_num, by norm_num, ?_, ?_, ?_, by decide⟩ <;>
        simp [get_assunto_id_events, get_agregados_from_assunto_events, hce,
          get_agregado_metadata_events, hpe, htr, htl, canonicalResolution,
          canonicalLlm, dataRequest_mem_resTrace]
    · refine ⟨3, 3, by norm_num, by norm_num, ?_, ?_, ?_, by decide⟩ <;>
        simp [get_assunto_id_events, get_agregados_from_assunto_events, hce,
          get_agregado_metadata_events, hpe, htr, htl, canonicalResolution,
          canonicalLlm, dataRequest_mem_resTrace]
  | ok territorio_id =>
  obtain ⟨htr, htl⟩ := select_territorio_id_trace_ok hf
  simp only [cbind_of_ok _ hf, cbind_cemit]
  cases hg : (select_variavel_id o md task).2 with
  | error e =>
    simp only [cbind_of_error _ hg]
    rcases select_variavel_id_trace o md task with hve | ⟨hve, _, _⟩
    · refine ⟨4, 5, by norm_num, by norm_num, ?_, ?_, ?_, by decide⟩ <;>
        simp [get_assunto_id_events, get_agregados_from_assunto_events, hce,
          get_agregado_metadata_events, hpe, htr, htl, hve,
          canonicalResolution, canonicalLlm, dataRequest_mem_resTrace]
    · refine ⟨4, 4, by norm_num, by norm_num, ?_, ?_, ?_, by decide⟩ <;>
        simp [get_assunto_id_events, get_agregados_from_assunto_events, hce,
          get_agregado_metadata_events, hpe, htr, htl, hve,
          canonicalResolution, canonicalLlm, dataRequest_mem_resTrace]
  | ok variavel_id =>
  have hve := select_variavel_id_events_ok hg
  simp only [cbind_of_ok _ hg, cbind_cemit]
  cases hh : (get_classificacao_id md).2 with
  | error e =>
    simp only [cbind_of_error _ hh]
    refine ⟨5, 5, by norm_num, by norm_num, ?_, ?_, ?_, by decide⟩ <;>
      simp [get_assunto_id_events, get_agregados_from_assunto_events, hce,
        get_agregado_metadata_events, hpe, htr, htl, hve,
        get_classificacao_id_events, canonicalResolution, canonicalLlm,
        dataRequest_mem_resTrace]
  | ok classificacao_id =>
  simp only [cbind_of_ok _ hh, cbind_cemit]
  cases hi : (get_ibge_data o agregados_id periodo_id variavel_id territorio_id
      classificacao_id).2 with
  | error e =>
    simp only [cbind_of_error _ hi]
    refine ⟨7, 5, by norm_num, by norm_num, ?_, ?_, ?_, by decide⟩ <;>
      simp [get_assunto_id_events, get_agregados_from_assunto_events, hce,
        get_agregado_metadata_events, hpe, htr, htl, hve,
        get_classificacao_id_events, get_ibge_data_events,
        canonicalResolution, canonicalLlm, dataRequest_mem_resTrace]
  | ok results =>
  simp only [cbind_of_ok _ hi]
  cases hj : (dfStep o step results).2 with
  | error e =>
    simp only [cbind_of_error _ hj]
    refine ⟨7, 5, by norm_num, by norm_num, ?_, ?_, ?_, by decide⟩ <;>
      simp [get_assunto_id_events, get_agregados_from_assunto_events, hce,
        get_agregado_metadata_events, hpe, htr, htl, hve,
        get_classificacao_id_events, get_ibge_data_events, dfStep_events,
        canonicalResolution, canonicalLlm, dataRequest_mem_resTrace]
  | ok rows =>
    simp only [cbind_of_ok _ hj]
    refine ⟨7, 5, by norm_num, by norm_num, ?_, ?_, ?_, by decide⟩ <;>
      simp [get_assunto_id_events, get_agregados_from_assunto_events, hce,
        get_agregado_metadata_events, hpe, htr, htl, hve,
        get_classificacao_id_events, get_ibge_data_events, dfStep_events, cret,
        canonicalResolution, canonicalLlm, dataRequest_mem_resTrace]

/-- The try-block wrapper adds no events beyond the pipeline's (the
validation and state construction are pure). -/
theorem collectorTryBody_events (o : CollectorOracle) (state : AgentState)
    (step : List (String × PyVal)) (task params q : PyVal) :
    (collectorTryBody o state step task params q).1 =
      (collectorPipeline o step task q).1 := by
  unfold collectorTryBody
  cases hp : (collectorPipeline o step task q).2 with
  | error e => simp [cbind_of_error _ hp]
  | ok out =>
    simp only [cbind_of_ok _ hp]
    cases h1 : pyGetD params "filters" (PyVal.dict []) with
    | error e => simp [cbind, clift, h1]
    | ok filters =>
      cases h2 : validateCCR o.now (successCCRInput out task params filters) with
      | error e => simp [cbind, clift, h1, h2]
      | ok r => simp [cbind, clift, cret, h1, h2]

/-- The node's events are exactly the try-block's events (the `except`
branch only logs). -/
theorem collector_node_events (o : CollectorOracle) (s : AgentState) :
    (collector_node o s).1 =
      (match findCollectorStep s.execution_plan with
       | some step =>
         (collectorPipeline o step ((kvLookup step "task").getD (PyVal.str ""))
           (extract_last_user_question s.messages)).1
       | Option.none => []) := by
  unfold collector_node
  cases hf : findCollectorStep s.execution_plan with
  | none => rfl
  | some step =>
    rcases ht : collectorTryBody o s step ((kvLookup step "task").getD (PyVal.str ""))
        ((kvLookup step "parameters").getD (PyVal.dict []))
        (extract_last_user_question s.messages) with ⟨evs, out⟩
    have hev := collectorTryBody_events o s step
      ((kvLookup step "task").getD (PyVal.str ""))
      ((kvLookup step "parameters").getD (PyVal.dict []))
      (extract_last_user_question s.messages)
    rw [ht] at hev
    cases out with
    | ok s' => simpa [ht] using hev
    | error e =>
      cases hx : collectorExceptBranch o s
          ((kvLookup step "task").getD (PyVal.str ""))
          ((kvLookup step "parameters").getD (PyVal.dict [])) e <;>
        simpa [ht, hx] using hev

/-- Master trace lemma transported to `collector_node`. -/
theorem collector_node_trace (o : CollectorOracle) (s : AgentState) :
    ∃ k m, k ≤ 7 ∧ m ≤ 5 ∧
      resTrace (collector_node o s).1 = canonicalResolution.take k ∧
      llmTrace (collector_node o s).1 = canonicalLlm.take m ∧
      (Ev.dataRequest ∈ (collector_node o s).1 ↔ k = 7) ∧
      (k = 7 → m = 5) := by
  rw [collector_node_events]
  cases hf : findCollectorStep s.execution_plan with
  | none =>
    exact ⟨0, 0, by norm_num, by norm_num, rfl, rfl, by simp, by simp⟩
  | some step =>
    simpa using collectorPipeline_trace o step
      ((kvLookup step "task").getD (PyVal.str ""))
      (extract_last_user_question s.messages)

/-! ## Frame lemmas for `collector_node` -/

/-- Python `isinstance(x, str)`. -/
def pyIsStrVal : PyVal → Bool
  | .str _ => true
  | _ => false

/-- The parameters of a plan step are well typed for the failure
`CollectorCompleteResult`: a dict whose `"variables"` entry (if any) is a
list of strings and whose `"filters"` entry (if any) is a dict. -/
def paramsWellTyped : PyVal → Bool
  | .dict kvs =>
    (match kvLookup kvs "variables" with
     | Option.none => true
     | some (.list xs) => xs.all pyIsStrVal
     | some _ => false) &&
    (match kvLookup kvs "filters" with
     | Option.none => true
     | some (.dict _) => true
     | some _ => false)
  | _ => false

/-- A collector plan step is well typed: its `"task"` (default `""`) is a
string and its `"parameters"` (default `{}`) are well typed.  Exactly the
conditions under which the `except`-branch `CollectorCompleteResult`
validates. -/
def stepWellTyped (step : List (String × PyVal)) : Bool :=
  pyIsStrVal ((kvLookup step "task").getD (PyVal.str "")) &&
  paramsWellTyped ((kvLookup step "parameters").getD (PyVal.dict []))

theorem strList_of_all {xs : List PyVal} (h : ∀ x ∈ xs, pyIsStrVal x = true) :
    ∃ ss, strList xs = Except.ok ss := by
  induction xs with
  | nil => exact ⟨[], rfl⟩
  | cons x rest ih =>
    obtain ⟨ss, hss⟩ := ih (fun y hy => h y (List.mem_cons_of_mem _ hy))
    have hx := h x (List.mem_cons_self x rest)
    cases x with
    | str sv => exact ⟨sv :: ss, by simp [strList, hss, Except.map]⟩
    | none => simp [pyIsStrVal] at hx
    | bool b => simp [pyIsStrVal] at hx
    | int n => simp [pyIsStrVal] at hx
    | list l => simp [pyIsStrVal] at hx
    | dict d => simp [pyIsStrVal] at hx

theorem collectorTryBody_ok_shape {o : CollectorOracle} {s : AgentState}
    {step : List (String × PyVal)} {task params q : PyVal} {s' : AgentState}
    (h : (collectorTryBody o s step task params q).2 = Except.ok s') :
    ∃ r, s' = frameReturn s r := by
  unfold collectorTryBody at h
  obtain ⟨out, hout, h2⟩ := cbind_ok_inv h
  obtain ⟨filters, hfil, h3⟩ := cbind_ok_inv h2
  obtain ⟨r, hr, h4⟩ := cbind_ok_inv h3
  refine ⟨r, ?_⟩
  simpa [cret] using h4.symm

theorem validateCCR_exceptInput (now t e : String) (vs : PyVal)
    (ss : List String) (hss : coerceListStr vs = Except.ok ss)
    (fkvs kvs : List (String × PyVal)) :
    validateCCR now [("success", .bool false), ("collected_data", .list []),
      ("failed_variables", vs), ("errors", .list [.str e]),
      ("metadata", .dict [("task", .str t)]),
      ("source_used", .dict [("name", .str "collector"),
        ("description", .str "execution error")]),
      ("filters_applied", .dict fkvs), ("task", .str t),
      ("parameters", .dict kvs), ("collection_time", .str now)] =
    Except.ok ⟨false, [], ss, [e], [("task", .str t)],
      [("name", .str "collector"), ("description", .str "execution error")],
      fkvs, now, t, kvs, Option.none, Option.none, Option.none, Option.none,
      Option.none, Option.none, Option.none⟩ := by
  have herr : coerceListStr (PyVal.list [PyVal.str e]) = Except.ok [e] := rfl
  simp [validateCCR, fieldR, fieldD, kvLookup, List.find?, coerceBool,
    coerceListAny, coerceDict, coerceStr, coerceOptInt,
    coerceOptStr, coerceOptListDict, hss, herr, bind, Except.bind, pure,
    Except.pure]

theorem collectorExceptBranch_ok (o : CollectorOracle) (s : AgentState)
    {task parameters : PyVal} (ht : pyIsStrVal task = true)
    (hp : paramsWellTyped parameters = true) (e : String) :
    ∃ r, collectorExceptBranch o s task parameters e =
      Except.ok (frameReturn s r) := by
  cases task <;> simp [pyIsStrVal] at ht
  case str t =>
  cases parameters <;> simp [paramsWellTyped] at hp
  case dict kvs =>
  obtain ⟨hvars, hfil⟩ := hp
  have hfv : ∃ vs ss, (kvLookup kvs "variables").getD (PyVal.list []) = vs ∧
      coerceListStr vs = Except.ok ss := by
    cases hv : kvLookup kvs "variables" with
    | none => exact ⟨PyVal.list [], [], rfl, rfl⟩
    | some v =>
      rw [hv] at hvars
      cases v <;> simp at hvars
      case list xs =>
        obtain ⟨ss, hss⟩ := strList_of_all hvars
        exact ⟨PyVal.list xs, ss, rfl, by simpa [coerceListStr] using hss⟩
  have hff : ∃ fkvs, (kvLookup kvs "filters").getD (PyVal.dict []) =
      PyVal.dict fkvs := by
    cases hv : kvLookup kvs "filters" with
    | none => exact ⟨[], rfl⟩
    | some v =>
      rw [hv] at hfil
      cases v <;> simp at hfil
      case dict fk => exact ⟨fk, rfl⟩
  obtain ⟨vs, ss, hvs, hss⟩ := hfv
  obtain ⟨fkvs, hfk⟩ := hff
  refine ⟨⟨false, [], ss, [e], [("task", .str t)],
    [("name", .str "collector"), ("description", .str "execution error")],
    fkvs, o.now, t, kvs, Option.none, Option.none, Option.none, Option.none,
    Option.none, Option.none, Option.none⟩, ?_⟩
  unfold collectorExceptBranch
  simp [pyGetD, hvs, hfk, validateCCR_exceptInput o.now t e vs ss hss fkvs kvs,
    bind, Except.bind, pure, Except.pure]

/-- Under a well-typed collector step, both branches of the node's
`try/except` return a `frameReturn`-shaped state. -/
theorem collector_node_returns (o : CollectorOracle) (s : AgentState)
    {step : List (String × PyVal)}
    (hf : findCollectorStep s.execution_plan = some step)
    (hw : stepWellTyped step = true) :
    ∃ r, (collector_node o s).2 = Except.ok (frameReturn s r) := by
  unfold stepWellTyped at hw
  rw [Bool.and_eq_true] at hw
  obtain ⟨ht, hp⟩ := hw
  unfold collector_node
  rw [hf]
  rcases hb : collectorTryBody o s step ((kvLookup step "task").getD (PyVal.str ""))
      ((kvLookup step "parameters").getD (PyVal.dict []))
      (extract_last_user_question s.messages) with ⟨evs, out⟩
  cases out with
  | ok s' =>
    obtain ⟨r, hr⟩ := collectorTryBody_ok_shape
      (show (collectorTryBody o s step ((kvLookup step "task").getD (PyVal.str ""))
        ((kvLookup step "parameters").getD (PyVal.dict []))
        (extract_last_user_question s.messages)).2 = Except.ok s' by rw [hb])
    exact ⟨r, by simp [hb, hr]⟩
  | error e =>
    obtain ⟨r, hr⟩ := collectorExceptBranch_ok o s ht hp e
    exact ⟨r, by simp [hb, hr]⟩

/-- Without a collector step the node raises before its `try`. -/
theorem collector_node_no_step (o : CollectorOracle) (s : AgentState)
    (hf : findCollectorStep s.execution_plan = Option.none) :
    collector_node o s =
      ([], Except.error "Collector step not found in execution plan") := by
  unfold collector_node
  rw [hf]

/-! ## Row/raw-value correspondence for `ibge_results_to_dataframe`
(claim C10)

The specification side is written from the claim's words: each row of the
frame corresponds to one `(period, value)` pair of one series under one
classification of one result of one variable, and the row's `valor` is
`None` exactly for raw `"..."`/`None` and the float conversion otherwise. -/

/-- Specification-side total `x.get(k, d)` (the claim concerns well-formed
payloads, where every container on the path is a dict). -/
def dictField (v : PyVal) (k : String) (d : PyVal) : PyVal :=
  match v with
  | .dict kvs => (kvLookup kvs k).getD d
  | _ => d

/-- The `(period, raw value)` pairs of one series. -/
def seriePairsSpec (serie_item : PyVal) : List (String × PyVal) :=
  match dictField serie_item "serie" (.dict []) with
  | .dict entries => entries
  | _ => []

/-- The `(period, raw value)` pairs of all series of one result (repeated
once per classification below). -/
def classSeriesPairsSpec (resultado : PyVal) : List (String × PyVal) :=
  match dictField resultado "series" (.list []) with
  | .list ss => (ss.map seriePairsSpec).flatten
  | _ => []

/-- The `(period, raw value)` pairs of one result: one copy of the series
pairs per classification. -/
def resultadoPairsSpec (resultado : PyVal) : List (String × PyVal) :=
  match dictField resultado "classificacoes" (.list []) with
  | .list cls => (cls.map (fun _ => classSeriesPairsSpec resultado)).flatten
  | _ => []

/-- The `(period, raw value)` pairs of one variable entry. -/
def varPairsSpec (var : PyVal) : List (String × PyVal) :=
  match dictField var "resultados" (.list []) with
  | .list rs => (rs.map resultadoPairsSpec).flatten
  | _ => []

/-- All `(period, raw value)` pairs of the input, in row order. -/
def rawPairs (results : List PyVal) : List (String × PyVal) :=
  (results.map varPairsSpec).flatten

/-- Specification of the `valor` column: `None` exactly for raw `"..."` or
`None`, the float conversion otherwise. -/
def specValor (pyFloat : PyVal → Option Rat) (raw : PyVal) : Option Rat :=
  if isDotsOrNone raw then Option.none else pyFloat raw

/-- Every raw value reached by a successful build converts under
`float(...)` unless it is `"..."` or `None`. -/
def convertibleOn (f : PyVal → Option Rat) (pairs : List (String × PyVal)) : Prop :=
  ∀ pv ∈ pairs, isDotsOrNone pv.2 = false → (f pv.2).isSome = true

/-- Inversion of `Except` bind on a successful run. -/
theorem except_bind_ok {α β : Type} {x : Except String α}
    {g : α → Except String β} {b : β} (h : (x >>= g) = Except.ok b) :
    ∃ a, x = Except.ok a ∧ g a = Except.ok b := by
  cases x with
  | error e => simp [bind, Except.bind] at h
  | ok a => exact ⟨a, rfl, by simpa [bind, Except.bind] using h⟩

theorem pyGetD_ok_inv {v : PyVal} {k : String} {d w : PyVal}
    (h : pyGetD v k d = Except.ok w) :
    ∃ kvs, v = PyVal.dict kvs ∧ w = (kvLookup kvs k).getD d := by
  cases v with
  | dict kvs =>
    refine ⟨kvs, rfl, ?_⟩
    simp [pyGetD] at h
    exact h.symm
  | none => simp [pyGetD] at h
  | bool b => simp [pyGetD] at h
  | int n => simp [pyGetD] at h
  | str s => simp [pyGetD] at h
  | list l => simp [pyGetD] at h

/-- Generic correspondence between an `Except`-threaded `mapM`+`flatten`
level of the row builder and a `map`+`flatten` level of the
specification. -/
theorem mapM_flatten_corr (f : PyVal → Option Rat)
    (g : PyVal → Except String (List IbgeRow))
    (gs : PyVal → List (String × PyVal)) :
    ∀ (l : List PyVal),
      (∀ x ∈ l, ∀ rs, g x = Except.ok rs →
        rs.map (fun r => (r.periodo, r.valor)) =
          (gs x).map (fun pv => (pv.1, specValor f pv.2)) ∧
        convertibleOn f (gs x)) →
      ∀ rss, l.mapM g = Except.ok rss →
        rss.flatten.map (fun r => (r.periodo, r.valor)) =
          ((l.map gs).flatten).map (fun pv => (pv.1, specValor f pv.2)) ∧
        convertibleOn f ((l.map gs).flatten) := by
  intro l
  induction l with
  | nil =>
    intro _ rss h
    simp only [List.mapM_nil, pure, Except.pure, Except.ok.injEq] at h
    subst h
    exact ⟨rfl, by simp [convertibleOn]⟩
  | cons x rest ih =>
    intro H rss h
    simp only [List.mapM_cons, bind, Except.bind, pure, Except.pure] at h
    cases hx : g x with
    | error e => rw [hx] at h; cases h
    | ok r0 =>
      rw [hx] at h
      cases hrest : rest.mapM g with
      | error e => rw [hrest] at h; cases h
      | ok rs0 =>
        rw [hrest] at h
        cases h
        obtain ⟨h1, hc1⟩ := H x (List.mem_cons_self x rest) r0 hx
        obtain ⟨h2, hc2⟩ := ih (fun y hy => H y (List.mem_cons_of_mem _ hy)) rs0 hrest
        refine ⟨by simp [h1, h2], ?_⟩
        intro pv hpv hdots
        simp only [List.map_cons, List.flatten_cons, List.mem_append] at hpv
        cases hpv with
        | inl hin => exact hc1 pv hin hdots
        | inr hin => exact hc2 pv hin hdots

/-- Rows built from one dict entry: period and valor as specified, and the
raw value converts unless it is `"..."`/`None`. -/
theorem mkSerieRow_spec (f : PyVal → Option Rat)
    (a b c d e : PyVal) (ci : Option String) (cn : Option PyVal)
    (li ln ni nn : PyVal) (pe : String × PyVal) (row : IbgeRow)
    (h : mkSerieRow f a b c d e ci cn li ln ni nn pe = Except.ok row) :
    (row.periodo = pe.1 ∧ row.valor = specValor f pe.2) ∧
      (isDotsOrNone pe.2 = false → (f pe.2).isSome = true) := by
  unfold mkSerieRow at h
  cases hd : isDotsOrNone pe.2 with
  | true =>
    simp only [hd, if_true, bind, Except.bind, pure, Except.pure,
      Except.ok.injEq] at h
    subst h
    simp [specValor, hd]
  | false =>
    cases hv : f pe.2 with
    | none =>
      simp only [hd, Bool.false_eq_true, if_false, hv, bind, Except.bind] at h
      cases h
    | some q =>
      simp only [hd, Bool.false_eq_true, if_false, hv, bind, Except.bind, pure,
        Except.pure, Except.ok.injEq] at h
      subst h
      simp [specValor, hd, hv]

/-- Entry-level correspondence for one series dict. -/
theorem serieEntries_map (f : PyVal → Option Rat)
    (a b c d e : PyVal) (ci : Option String) (cn : Option PyVal)
    (li ln ni nn : PyVal) :
    ∀ (entries : List (String × PyVal)) (rows : List IbgeRow),
      entries.mapM (mkSerieRow f a b c d e ci cn li ln ni nn) = Except.ok rows →
      rows.map (fun r => (r.periodo, r.valor)) =
        entries.map (fun pv => (pv.1, specValor f pv.2)) ∧
      convertibleOn f entries := by
  intro entries
  induction entries with
  | nil =>
    intro rows h
    simp only [List.mapM_nil, pure, Except.pure, Except.ok.injEq] at h
    subst h
    exact ⟨rfl, by simp [convertibleOn]⟩
  | cons pe rest ih =>
    intro rows h
    simp only [List.mapM_cons, bind, Except.bind, pure, Except.pure] at h
    cases hx : mkSerieRow f a b c d e ci cn li ln ni nn pe with
    | error e2 => rw [hx] at h; cases h
    | ok row =>
      rw [hx] at h
      cases hrest : rest.mapM (mkSerieRow f a b c d e ci cn li ln ni nn) with
      | error e2 => rw [hrest] at h; cases h
      | ok rs0 =>
        rw [hrest] at h
        cases h
        obtain ⟨⟨hp, hv⟩, hconv⟩ :=
          mkSerieRow_spec f a b c d e ci cn li ln ni nn pe row hx
        obtain ⟨hmap, hcv⟩ := ih rs0 hrest
        refine ⟨by simp [hp, hv, hmap], ?_⟩
        intro pv hpv hdots
        simp only [List.mem_cons] at hpv
        cases hpv with
        | inl hin => subst hin; exact hconv hdots
        | inr hin => exact hcv pv hin hdots

/-- Series-level correspondence. -/
theorem serieRows_spec (f : PyVal → Option Rat) (a b c d e : PyVal)
    (ci : Option String) (cn : Option PyVal) (serie_item : PyVal)
    (rows : List IbgeRow)
    (h : serieRows f a b c d e ci cn serie_item = Except.ok rows) :
    rows.map (fun r => (r.periodo, r.valor)) =
      (seriePairsSpec serie_item).map (fun pv => (pv.1, specValor f pv.2)) ∧
    convertibleOn f (seriePairsSpec serie_item) := by
  unfold serieRows at h
  obtain ⟨localidade, h1, h⟩ := except_bind_ok h
  obtain ⟨li', h2, h⟩ := except_bind_ok h
  obtain ⟨ln', h3, h⟩ := except_bind_ok h
  obtain ⟨nivel, h4, h⟩ := except_bind_ok h
  obtain ⟨ni', h5, h⟩ := except_bind_ok h
  obtain ⟨nn', h6, h⟩ := except_bind_ok h
  obtain ⟨serie, h7, h⟩ := except_bind_ok h
  obtain ⟨skvs, hsk, hser⟩ := pyGetD_ok_inv h7
  subst hsk
  cases serie with
  | dict entries =>
    have hspec : seriePairsSpec (PyVal.dict skvs) = entries := by
      simp [seriePairsSpec, dictField, ← hser]
    rw [hspec]
    exact serieEntries_map f a b c d e ci cn li' ln' ni' nn' entries rows h
  | none => cases h
  | bool b2 => cases h
  | int n2 => cases h
  | str s2 => cases h
  | list l2 => cases h

/-- Classification-level correspondence. -/
theorem classRows_spec (f : PyVal → Option Rat) (a b c : PyVal)
    (resultado classificacao : PyVal) (rows : List IbgeRow)
    (h : classRows f a b c resultado classificacao = Except.ok rows) :
    rows.map (fun r => (r.periodo, r.valor)) =
      (classSeriesPairsSpec resultado).map (fun pv => (pv.1, specValor f pv.2)) ∧
    convertibleOn f (classSeriesPairsSpec resultado) := by
  unfold classRows at h
  obtain ⟨class_id, h1, h⟩ := except_bind_ok h
  obtain ⟨class_nome, h2, h⟩ := except_bind_ok h
  obtain ⟨categoria, h3, h⟩ := except_bind_ok h
  obtain ⟨series, h4, h⟩ := except_bind_ok h
  obtain ⟨rkvs, hrk, hser⟩ := pyGetD_ok_inv h4
  subst hrk
  cases series with
  | list ss =>
    obtain ⟨rss, h5, h6⟩ := except_bind_ok h
    have hrows : rows = rss.flatten := by
      simpa [pure, Except.pure] using h6.symm
    subst hrows
    have hspec : classSeriesPairsSpec (PyVal.dict rkvs) =
        (ss.map seriePairsSpec).flatten := by
      simp [classSeriesPairsSpec, dictField, ← hser]
    rw [hspec]
    exact mapM_flatten_corr f _ seriePairsSpec ss
      (fun x _ rs hx => serieRows_spec f a b c class_id class_nome
        (primeiraCategoria categoria).1 (primeiraCategoria categoria).2 x rs hx)
      rss h5
  | none => cases h
  | bool b2 => cases h
  | int n2 => cases h
  | str s2 => cases h
  | dict d2 => cases h

/-- Result-level correspondence. -/
theorem resultadoRows_spec (f : PyVal → Option Rat) (a b c : PyVal)
    (resultado : PyVal) (rows : List IbgeRow)
    (h : resultadoRows f a b c resultado = Except.ok rows) :
    rows.map (fun r => (r.periodo, r.valor)) =
      (resultadoPairsSpec resultado).map (fun pv => (pv.1, specValor f pv.2)) ∧
    convertibleOn f (resultadoPairsSpec resultado) := by
  unfold resultadoRows at h
  obtain ⟨classificacoes, h1, h⟩ := except_bind_ok h
  obtain ⟨rkvs, hrk, hcls⟩ := pyGetD_ok_inv h1
  subst hrk
  cases classificacoes with
  | list cls =>
    obtain ⟨rss, h2, h3⟩ := except_bind_ok h
    have hrows : rows = rss.flatten := by
      simpa [pure, Except.pure] using h3.symm
    subst hrows
    have hspec : resultadoPairsSpec (PyVal.dict rkvs) =
        (cls.map (fun _ => classSeriesPairsSpec (PyVal.dict rkvs))).flatten := by
      simp [resultadoPairsSpec, dictField, ← hcls]
    rw [hspec]
    exact mapM_flatten_corr f _ (fun _ => classSeriesPairsSpec (PyVal.dict rkvs))
      cls (fun x _ rs hx => classRows_spec f a b c (PyVal.dict rkvs) x rs hx)
      rss h2
  | none => cases h
  | bool b2 => cases h
  | int n2 => cases h
  | str s2 => cases h
  | dict d2 => cases h

/-- Variable-level correspondence. -/
theorem varRows_spec (f : PyVal → Option Rat) (var : PyVal)
    (rows : List IbgeRow) (h : varRows f var = Except.ok rows) :
    rows.map (fun r => (r.periodo, r.valor)) =
      (varPairsSpec var).map (fun pv => (pv.1, specValor f pv.2)) ∧
    convertibleOn f (varPairsSpec var) := by
  unfold varRows at h
  obtain ⟨var_id, h1, h⟩ := except_bind_ok h
  obtain ⟨var_nome, h2, h⟩ := except_bind_ok h
  obtain ⟨unidade, h3, h⟩ := except_bind_ok h
  obtain ⟨resultados, h4, h⟩ := except_bind_ok h
  obtain ⟨vkvs, hvk, hres⟩ := pyGetD_ok_inv h4
  subst hvk
  cases resultados with
  | list rs =>
    obtain ⟨rss, h5, h6⟩ := except_bind_ok h
    have hrows : rows = rss.flatten := by
      simpa [pure, Except.pure] using h6.symm
    subst hrows
    have hspec : varPairsSpec (PyVal.dict vkvs) =
        (rs.map resultadoPairsSpec).flatten := by
      simp [varPairsSpec, dictField, ← hres]
    rw [hspec]
    exact mapM_flatten_corr f _ resultadoPairsSpec rs
      (fun x _ rs2 hx => resultadoRows_spec f var_id var_nome unidade x rs2 hx)
      rss h5
  | none => cases h
  | bool b2 => cases h
  | int n2 => cases h
  | str s2 => cases h
  | dict d2 => cases h

/-- Full correspondence for `ibge_results_to_dataframe`: the rows'
`(periodo, valor)` columns are exactly the raw `(period, value)` pairs
(one row per pair per classification per result per variable), with
`valor` given by `specValor`, and every reached raw value outside
`("...", None)` converts. -/
theorem ibge_results_to_dataframe_spec (f : PyVal → Option Rat)
    (results : List PyVal) (name : String) (rows : List IbgeRow)
    (h : ibge_results_to_dataframe f results name = Except.ok rows) :
    rows.map (fun r => (r.periodo, r.valor)) =
      (rawPairs results).map (fun pv => (pv.1, specValor f pv.2)) ∧
    convertibleOn f (rawPairs results) := by
  unfold ibge_results_to_dataframe at h
  obtain ⟨rss, h1, h2⟩ := except_bind_ok h
  have hrows : rows = rss.flatten := by
    simpa [pure, Except.pure] using h2.symm
  subst hrows
  exact mapM_flatten_corr f (varRows f) varPairsSpec results
    (fun x _ rs hx => varRows_spec f x rs hx) rss h1

/-! ## Graph-run lemmas -/

theorem runFrom_step_ok (os : Oracles) (g : StateGraphDef) (fuel : Nat)
    (n : String) (s s' : AgentState) (m : String) (hn : (n == ENDNode) = false)
    (h1 : runNode os n s = Except.ok s') (h2 : nextNode g n = some m) :
    runFrom os g (fuel + 1) n s =
      ((n, s) :: (runFrom os g fuel m s').1, (runFrom os g fuel m s').2) := by
  simp [runFrom, hn, h1, h2]

theorem runFrom_step_error (os : Oracles) (g : StateGraphDef) (fuel : Nat)
    (n : String) (s : AgentState) (e : String) (hn : (n == ENDNode) = false)
    (h1 : runNode os n s = Except.error e) :
    runFrom os g (fuel + 1) n s = ([(n, s)], Except.error e) := by
  simp [runFrom, hn, h1]

theorem runFrom_end (os : Oracles) (g : StateGraphDef) (fuel : Nat)
    (s : AgentState) : runFrom os g (fuel + 1) ENDNode s = ([], Except.ok s) := by
  simp [runFrom]

/-- C7: execution of the compiled graph is fully sequential.  In every
run with a successful planner invocation the trace is literally
planner-then-collector — the planner node completes (its update is merged)
before the collector node starts, and the collector's input state carries
exactly the `execution_plan` the planner wrote.  The run semantics
(`runFrom`) executes one node at a time, so no two nodes ever run
concurrently. -/
theorem c7_sequential_execution (os : Oracles) (s0 : AgentState) (last : Message)
    (plan : List (List (String × PyVal)))
    (hmsg : s0.messages.getLast? = some last)
    (hinv : os.planner.invoke last.content = Except.ok plan) :
    (graphInvoke os s0).1 =
      [("planner", s0),
       ("collector",
         applyUpdate s0 { execution_plan := some plan, current_step := some 0 })] ∧
    (applyUpdate s0
      { execution_plan := some plan, current_step := some 0 }).execution_plan =
      plan := by
  have hplanner : planner_node os.planner s0 =
      Except.ok { execution_plan := some plan, current_step := some 0 } := by
    simp [planner_node, hmsg, hinv]
  refine ⟨?_, rfl⟩
  have hrn : runNode os construct_graph.entry s0 =
      Except.ok (applyUpdate s0
        { execution_plan := some plan, current_step := some 0 }) := by
    simp [runNode, construct_graph, hplanner, Except.map]
  have hnx : nextNode construct_graph construct_graph.entry = some "collector" := rfl
  have hnx2 : nextNode construct_graph "collector" = some ENDNode := rfl
  have hfuel : construct_graph.nodes.length + 2 = 3 + 1 := rfl
  unfold graphInvoke
  rw [hfuel, runFrom_step_ok os construct_graph 3 construct_graph.entry s0 _
    "collector" (by rfl) hrn hnx]
  cases hc : runNode os "collector"
      (applyUpdate s0 { execution_plan := some plan, current_step := some 0 }) with
  | error e =>
    rw [show (3 : Nat) = 2 + 1 from rfl,
      runFrom_step_error os construct_graph 2 "collector" _ e (by rfl) hc]
    rfl
  | ok s2 =>
    rw [show (3 : Nat) = 2 + 1 from rfl,
      runFrom_step_ok os construct_graph 2 "collector" _ s2 ENDNode (by rfl) hc hnx2,
      show (2 : Nat) = 1 + 1 from rfl, runFrom_end]
    rfl

/-! ## Concrete run data (witnesses and counterexamples) -/

/-- A `json.loads` table consistent with real JSON parsing on the strings
the concrete runs use. -/
def jsonTable : String → Option PyVal := fun s =>
  if s = "\x7b\"id\": 7\x7d" then some (.dict [("id", .int 7)])
  else if s = "\x7b\"id\": 100\x7d" then some (.dict [("id", .int 100)])
  else if s = "\x7b\"id\": \"2022\"\x7d" then some (.dict [("id", .str "2022")])
  else if s = "\x7b\"id\": \"N6\"\x7d" then some (.dict [("id", .str "N6")])
  else if s = "\x7b\"id\": 1\x7d" then some (.dict [("id", .int 1)])
  else Option.none

/-- An agent response whose final message is an `AIMessage` with the given
content. -/
def respOf (s : String) : AgentResult :=
  .dictMessages [⟨MsgKind.ai, .str s⟩]

/-- Aggregate metadata used by the concrete runs. -/
def metadata0 : PyVal := .dict [
  ("periodos_disponiveis", .dict [("periodos", .list [.str "2022"])]),
  ("metadados", .dict [
    ("nivelTerritorial", .dict [("Administrativo", .list [.str "N1"])]),
    ("variaveis", .list [.dict [("id", .int 1)]]),
    ("classificacoes", .list [.dict [("id", .int 2)]])])]

/-- Aggregates listing used by the concrete runs. -/
def agregados0 : PyVal := .dict [
  ("temas_encontrados", .list [.dict [("agregados",
    .list [.dict [("id", .int 100)]])]])]

/-- One raw IBGE variable payload with one classification, one series and
two periods (one numeric, one `"..."`). -/
def resultVar0 : PyVal := .dict [
  ("id", .int 1), ("variavel", .str "Populacao"), ("unidade", .str "pessoas"),
  ("resultados", .list [.dict [
    ("classificacoes", .list [.dict [("id", .int 2), ("nome", .str "c"),
      ("categoria", .dict [("4", .str "Total")])]]),
    ("series", .list [.dict [
      ("localidade", .dict [("id", .str "1"), ("nome", .str "Brasil"),
        ("nivel", .dict [("id", .str "N1"), ("nome", .str "Pais")])]),
      ("serie", .dict [("2022", .str "123"), ("2021", .str "...")])]])]])]

/-- `float(...)` table for the concrete runs. -/
def pyFloat0 : PyVal → Option Rat := fun v =>
  match v with
  | .str "123" => some 123
  | .int n => some n
  | _ => Option.none

/-- A collector environment on which every step succeeds. -/
def coOK : CollectorOracle := {
  invokeAssunto := fun _ => .ok (respOf "\x7b\"id\": 7\x7d")
  invokeAgregado := fun _ _ => .ok (respOf "\x7b\"id\": 100\x7d")
  invokePeriodo := fun _ _ => .ok (respOf "\x7b\"id\": \"2022\"\x7d")
  invokeTerritorio := fun _ _ => .ok (respOf "\x7b\"id\": \"N6\"\x7d")
  invokeVariavel := fun _ _ => .ok (respOf "\x7b\"id\": 1\x7d")
  agregadosRequest := fun _ => .ok agregados0
  metadadosRequest := fun _ => .ok metadata0
  nivelSearch := fun _ => .ok (.str "NIVEL_GEOGRAFICO: N1 | Brasil")
  dadosRequest := fun _ _ _ _ _ => .ok (.list [resultVar0])
  jsonLoads := jsonTable
  regexFindJson := fun _ => Option.none
  pyFloat := pyFloat0
  now := "2026-01-01T00:00:00Z" }

/-- A collector environment whose period and territory replies are not
parseable JSON. -/
def coGarbled : CollectorOracle := { coOK with
  invokePeriodo := fun _ _ => .ok (respOf "garbage")
  invokeTerritorio := fun _ _ => .ok (respOf "garbage") }

/-- A collector environment whose subject, aggregate and variable replies
are not parseable JSON. -/
def coGarbled2 : CollectorOracle := { coOK with
  invokeAssunto := fun _ => .ok (respOf "garbage")
  invokeAgregado := fun _ _ => .ok (respOf "garbage")
  invokeVariavel := fun _ _ => .ok (respOf "garbage") }

/-- A well-formed input state with a well-typed collector step. -/
def state0 : AgentState := {
  messages := [⟨MsgKind.human, .str "Quantidade populacional por regiao"⟩]
  execution_plan := [[("agent", .str "collector"),
    ("task", .str "populacao por regiao"),
    ("parameters", .dict [("concept", .str "populacao"),
      ("territory", .str "regiao")])]]
  current_step := 0
  data := .none
  analysis := .none
  answer := "" }

/-- A state whose collector step carries a non-string `task`. -/
def stateBadTask : AgentState := {
  messages := [⟨MsgKind.human, .str "pergunta"⟩]
  execution_plan := [[("agent", .str "collector"), ("task", .int 5)]]
  current_step := 0
  data := .none
  analysis := .none
  answer := "" }

/-- A planner environment whose agent invocation raises. -/
def plannerFail : PlannerOracle := ⟨fun _ => .error "boom"⟩

/-- A planner environment producing `state0`'s plan. -/
def plannerOK : PlannerOracle := ⟨fun _ => .ok state0.execution_plan⟩

/-- The initial state of a graph run, before any plan exists. -/
def stateInit : AgentState := {
  messages := [⟨MsgKind.human, .str "Quantidade populacional por regiao"⟩]
  execution_plan := []
  current_step := 0
  data := .none
  analysis := .none
  answer := "" }

/-! ## Claim theorems -/

/-- C1 (counterexample): the compiled graph does NOT consist of three
nodes — `construct_graph` never adds a `"communicator"` node, and a run
executes exactly `planner` then `collector`. -/
theorem c1_graph_has_no_communicator :
    "communicator" ∉ construct_graph.nodes ∧
    compiledOrder construct_graph = ["planner", "collector"] := by
  constructor
  · decide
  · rfl

/-- C1 (amended): the compiled workflow graph is a linear pipeline of TWO
sequential nodes — for every execution the planner node and the collector
node each run exactly once, in that order, with no other node and no
branching (each node has exactly one outgoing edge); the communicator node
exists in the codebase but is not part of the graph. -/
theorem c1_two_node_linear_pipeline :
    compiledOrder construct_graph = ["planner", "collector"] ∧
    (compiledOrder construct_graph).count "planner" = 1 ∧
    (compiledOrder construct_graph).count "collector" = 1 ∧
    "communicator" ∉ construct_graph.nodes ∧
    construct_graph.entry = "planner" ∧
    ∀ n ∈ construct_graph.nodes,
      (construct_graph.edges.filter (fun e => e.1 == n)).length = 1 := by
  refine ⟨rfl, rfl, rfl, by decide, rfl, ?_⟩
  decide

/-- C2: for every environment and every input state containing a collector
step, `collector_node` resolves its parameters in the order
subject → aggregate → period → territory → variable → classification (its
resolution trace is an initial segment of the canonical order), and the
final data request is issued only on runs in which all six resolutions
completed first. -/
theorem c2_resolution_order (o : CollectorOracle) (s : AgentState)
    (_h : hasCollectorStep s.execution_plan = true) :
    resTrace (collector_node o s).1 <+: canonicalResolution ∧
    (Ev.dataRequest ∈ (collector_node o s).1 →
      resTrace (collector_node o s).1 = canonicalResolution) := by
  obtain ⟨k, m, hk, hm, hres, hllm, hmem, himp⟩ := collector_node_trace o s
  constructor
  · rw [hres]
    exact List.take_prefix k canonicalResolution
  · intro hd
    rw [hres, hmem.mp hd]
    rfl

/-- C2 (witness): the canonical successful run resolves all six
parameters in order and then issues the data request. -/
theorem c2_resolution_order_witness :
    hasCollectorStep state0.execution_plan = true ∧
    (resTrace (collector_node coOK state0).1 <+: canonicalResolution ∧
      (Ev.dataRequest ∈ (collector_node coOK state0).1 →
        resTrace (collector_node coOK state0).1 = canonicalResolution)) :=
  ⟨by rfl, c2_resolution_order coOK state0 (by rfl)⟩

/-- C3 (counterexample): on a complete concrete run the classification
step completes (`resolved "classificacao"` is logged and the data request
follows) WITHOUT any LLM call — the run's LLM-call trace is the five
canonical calls, with none for classification.  This refutes "each of the
six parameter-resolution steps … is delegated to an LLM call". -/
theorem c3_classification_without_llm :
    Ev.resolved "classificacao" ∈ (collector_node coOK state0).1 ∧
    Ev.dataRequest ∈ (collector_node coOK state0).1 ∧
    Ev.llmCall "classificacao" ∉ (collector_node coOK state0).1 ∧
    llmTrace (collector_node coOK state0).1 = canonicalLlm := by
  refine ⟨?_, ?_, ?_, ?_⟩ <;> decide

/-- C3 (amended): five of the six resolution steps (subject, aggregate,
period, territory, variable) are delegated to LLM calls — a run's LLM-call
trace is an initial segment of those five calls, all five occurring
exactly when the run reaches the data request — while the classification
step performs no LLM call at all (`get_classificacao_id` emits no event:
it reads `metadados["classificacoes"][0]["id"]` directly). -/
theorem c3_five_llm_calls (o : CollectorOracle) (s : AgentState)
    (_h : hasCollectorStep s.execution_plan = true) :
    llmTrace (collector_node o s).1 <+: canonicalLlm ∧
    Ev.llmCall "classificacao" ∉ (collector_node o s).1 ∧
    (Ev.dataRequest ∈ (collector_node o s).1 →
      llmTrace (collector_node o s).1 = canonicalLlm) ∧
    (∀ md, (get_classificacao_id md).1 = []) := by
  obtain ⟨k, m, hk, hm, hres, hllm, hmem, himp⟩ := collector_node_trace o s
  refine ⟨?_, ?_, ?_, get_classificacao_id_events⟩
  · rw [hllm]
    exact List.take_prefix m canonicalLlm
  · intro hmem2
    have h1 : Ev.llmCall "classificacao" ∈ llmTrace (collector_node o s).1 := by
      simp [llmTrace, List.mem_filter, isLlmEv, hmem2]
    rw [hllm] at h1
    have h2 := List.take_subset m canonicalLlm h1
    simp [canonicalLlm] at h2
  · intro hd
    rw [hllm, himp (hmem.mp hd)]
    rfl

/-- C3 (amended, witness): instance of the five-LLM-call property on the
canonical successful run. -/
theorem c3_five_llm_calls_witness :
    hasCollectorStep state0.execution_plan = true ∧
    (llmTrace (collector_node coOK state0).1 <+: canonicalLlm ∧
      Ev.llmCall "classificacao" ∉ (collector_node coOK state0).1 ∧
      (Ev.dataRequest ∈ (collector_node coOK state0).1 →
        llmTrace (collector_node coOK state0).1 = canonicalLlm) ∧
      (∀ md, (get_classificacao_id md).1 = [])) :=
  ⟨by rfl, c3_five_llm_calls coOK state0 (by rfl)⟩

/-- C9: `_parse_assunto_collector_result` is total (it is a Lean function
into `Option`), returns `None` unless its input is a dict whose
`"messages"` entry is a list, and in that case returns the `"id"` value of
the LAST message that is an `AIMessage` whose string content parses as a
JSON object containing `"id"` (`find?` over the reversed list), and `None`
when no such message exists. -/
theorem c9_parse_assunto_result (jsonLoads : String → Option PyVal)
    (input : AgentResult) :
    parse_assunto_collector_result jsonLoads input =
      (match input with
       | .dictMessages msgs =>
         (msgs.reverse.find? (isIdAIMessage jsonLoads)).bind (extractId jsonLoads)
       | _ => Option.none) := by
  cases input with
  | notDict => rfl
  | dictNoMessages => rfl
  | dictMessages msgs => exact findIdReversed_eq_find jsonLoads msgs.reverse

/-- C4 (counterexample): the planner node does NOT return a failure
payload — its broad `except` logs and RE-RAISES, so an agent failure
propagates a `ValueError` to the caller even though the node had started
executing (its messages list is nonempty and was already read). -/
theorem c4_planner_reraises :
    state0.messages ≠ [] ∧
    planner_node plannerFail state0 = Except.error "Planner error: boom" := by
  exact ⟨by simp [state0], by rfl⟩

/-- C4 (amended): error handling differs per node.  The collector (for a
well-typed collector step) and the communicator (for string message
contents) catch exceptions broadly and return a payload as the node
result — the communicator's failure payload carries `success := False` and
the rendered error answer — but the planner's broad catch re-raises
`ValueError(f"Planner error: {e}")` to its caller. -/
theorem c4_error_handling :
    (∀ (po : PlannerOracle) (s : AgentState) (last : Message) (e : String),
      s.messages.getLast? = some last →
      po.invoke last.content = Except.error e →
      planner_node po s = Except.error ("Planner error: " ++ e)) ∧
    (∀ (o : CollectorOracle) (s : AgentState) (step : List (String × PyVal)),
      findCollectorStep s.execution_plan = some step →
      stepWellTyped step = true →
      ∃ r, (collector_node o s).2 = Except.ok (frameReturn s r)) ∧
    (∀ (co : CommOracle) (s : AgentState) (m : Message),
      s.messages.reverse.find? (fun m => pyTruthy m.content) = some m →
      pyIsStrVal m.content = true →
      ∃ ret, communicator_node co s = Except.ok ret ∧
        ret.current_step = s.current_step + 1 ∧
        (ret.comm_success = true ∨
          ∃ e, ret.comm_success = false ∧ ret.answer = errorAnswer e)) ∧
    (∀ (co : CommOracle) (s : AgentState),
      s.messages.reverse.find? (fun m => pyTruthy m.content) = Option.none →
      ∃ ret, communicator_node co s = Except.ok ret ∧
        ret.current_step = s.current_step + 1) := by
  refine ⟨?_, ?_, ?_, ?_⟩
  · intro po s last e hmsg hinv
    simp [planner_node, hmsg, hinv]
  · intro o s step hf hw
    exact collector_node_returns o s hf hw
  · intro co s m hfind hstr
    cases hc : m.content <;> rw [hc] at hstr <;> simp [pyIsStrVal] at hstr
    case str sm =>
    cases ht : co.tryOutcome s.data (pyStrip sm) with
    | ok resp =>
      have he : communicator_node co s = Except.ok
          { messages := s.messages ++ [⟨MsgKind.ai, .str resp⟩],
            execution_plan := s.execution_plan,
            current_step := s.current_step + 1, data := s.data,
            analysis := s.analysis, answer := resp, comm_success := true } := by
        simp [communicator_node, hfind, hc, ht]
      exact ⟨_, he, rfl, Or.inl rfl⟩
    | error e =>
      have he : communicator_node co s = Except.ok
          { messages := s.messages ++ [⟨MsgKind.ai, .str (errorAnswer e)⟩],
            execution_plan := s.execution_plan,
            current_step := s.current_step + 1, data := s.data,
            analysis := s.analysis, answer := errorAnswer e,
            comm_success := false } := by
        simp [communicator_node, hfind, hc, ht]
      exact ⟨_, he, rfl, Or.inr ⟨e, rfl, rfl⟩⟩
  · intro co s hfind
    cases ht : co.tryOutcome s.data "" with
    | ok resp =>
      have he : communicator_node co s = Except.ok
          { messages := s.messages ++ [⟨MsgKind.ai, .str resp⟩],
            execution_plan := s.execution_plan,
            current_step := s.current_step + 1, data := s.data,
            analysis := s.analysis, answer := resp, comm_success := true } := by
        simp [communicator_node, hfind, ht]
      exact ⟨_, he, rfl⟩
    | error e =>
      have he : communicator_node co s = Except.ok
          { messages := s.messages ++ [⟨MsgKind.ai, .str (errorAnswer e)⟩],
            execution_plan := s.execution_plan,
            current_step := s.current_step + 1, data := s.data,
            analysis := s.analysis, answer := errorAnswer e,
            comm_success := false } := by
        simp [communicator_node, hfind, ht]
      exact ⟨_, he, rfl⟩

/-- C4 (amended, witness): instantiation of each conjunct on concrete
environments. -/
theorem c4_error_handling_witness :
    planner_node plannerFail state0 = Except.error "Planner error: boom" ∧
    (∃ r, (collector_node coOK state0).2 = Except.ok (frameReturn state0 r)) ∧
    (∃ ret, communicator_node ⟨fun _ _ => Except.error "boom"⟩ state0 =
        Except.ok ret ∧
      ret.current_step = state0.current_step + 1 ∧
      (ret.comm_success = true ∨
        ∃ e, ret.comm_success = false ∧ ret.answer = errorAnswer e)) :=
  ⟨c4_error_handling.1 plannerFail state0 _ "boom" rfl rfl,
   c4_error_handling.2.1 coOK state0 _ rfl rfl,
   c4_error_handling.2.2.1 (⟨fun _ _ => Except.error "boom"⟩ : CommOracle)
     state0 _ rfl rfl⟩

/-- C5 (counterexample): an unparseable LLM reply does NOT make every
resolution step raise — with a garbled reply (`json.loads` fails on it)
the period step substitutes the LAST available period and the territory
step substitutes the default `"N1[all]"`, both returning successfully. -/
theorem c5_fallbacks_exist :
    coGarbled.jsonLoads "garbage" = Option.none ∧
    (select_periodo_id coGarbled metadata0 (PyVal.str "t")).2 =
      Except.ok (PyVal.int 2022) ∧
    (select_territorio_id coGarbled metadata0 (PyVal.str "t")).2 =
      Except.ok "N1[all]" := by
  exact ⟨by rfl, by rfl, by rfl⟩

/-- C5 (amended): when the LLM reply cannot be parsed to an id, the
subject, aggregate and variable steps raise (caught by the node's single
`try/except`), but the period step falls back to the last available period
and the territory step falls back to the default territory `"N1[all]"`. -/
theorem c5_parse_failure_behaviour :
    (∀ (o : CollectorOracle) (q : PyVal) (resp : AgentResult),
      o.invokeAssunto q = Except.ok resp →
      parse_assunto_collector_result o.jsonLoads resp = Option.none →
      (get_assunto_id o q).2 =
        Except.error "Não foi possível encontrar o assunto ID") ∧
    (∀ (o : CollectorOracle) (ag task temas tema0 lst : PyVal)
       (resp : AgentResult),
      pyGetD ag "temas_encontrados" (PyVal.list [PyVal.dict []]) =
        Except.ok temas →
      pyIndex0 temas = Except.ok tema0 →
      pyGetD tema0 "agregados" (PyVal.list []) = Except.ok lst →
      pyTruthy lst = true →
      o.invokeAgregado lst task = Except.ok resp →
      parse_assunto_collector_result o.jsonLoads resp = Option.none →
      (select_agregado_id o ag task).2 =
        Except.error "Não foi possível selecionar o agregado") ∧
    (∀ (o : CollectorOracle) (md task mdd vars : PyVal) (resp : AgentResult),
      pyGetD md "metadados" (PyVal.dict []) = Except.ok mdd →
      pyGetD mdd "variaveis" (PyVal.list []) = Except.ok vars →
      pyTruthy vars = true →
      o.invokeVariavel vars task = Except.ok resp →
      parse_assunto_collector_result o.jsonLoads resp = Option.none →
      (select_variavel_id o md task).2 =
        Except.error "Não foi possível selecionar a variável") ∧
    (∀ (o : CollectorOracle) (md task pd periodos p : PyVal)
       (resp : AgentResult),
      pyGetD md "periodos_disponiveis" (PyVal.dict []) = Except.ok pd →
      pyGetD pd "periodos" (PyVal.list []) = Except.ok periodos →
      pyTruthy periodos = true →
      o.invokePeriodo periodos task = Except.ok resp →
      parse_assunto_collector_result o.jsonLoads resp = Option.none →
      pyLast periodos = Except.ok p →
      pyIsInt (periodoNormalize p) = true →
      (select_periodo_id o md task).2 = Except.ok (periodoNormalize p)) ∧
    (∀ (o : CollectorOracle) (md task mdd nt : PyVal) (detalhados : List PyVal)
       (resp : AgentResult),
      pyGetD md "metadados" (PyVal.dict []) = Except.ok mdd →
      pyGetD mdd "nivelTerritorial" (PyVal.dict []) = Except.ok nt →
      pyTruthy nt = true →
      (cleanCodes (gatherCodes nt)).isEmpty = false →
      (territorioLoop o (cleanCodes (gatherCodes nt))).2 = Except.ok detalhados →
      detalhados.isEmpty = false →
      o.invokeTerritorio detalhados task = Except.ok resp →
      parse_territorio_collector_result o.jsonLoads o.regexFindJson resp =
        Option.none →
      (select_territorio_id o md task).2 = Except.ok "N1[all]") := by
  refine ⟨?_, ?_, ?_, ?_, ?_⟩
  · intro o q resp hinv hp
    simp [get_assunto_id, cbind_snd, cemit, clift, cthrow, hinv, hp]
  · intro o ag task temas tema0 lst resp h1 h2 h3 h4 h5 h6
    simp [select_agregado_id, cbind_snd, cemit, clift, cthrow,
      h1, h2, h3, h4, h5, h6]
  · intro o md task mdd vars resp h1 h2 h3 h4 h5
    simp [select_variavel_id, cbind_snd, cemit, clift, cthrow,
      h1, h2, h3, h4, h5]
  · intro o md task pd periodos p resp h1 h2 h3 h4 h5 h6 h7
    simp [select_periodo_id, cbind_snd, cemit, clift, cret, cthrow,
      periodoFallback, h1, h2, h3, h4, h5, h6, h7]
  · intro o md task mdd nt detalhados resp h1 h2 h3 h4 h5 h6 h7 h8
    rcases hl : territorioLoop o (cleanCodes (gatherCodes nt)) with ⟨levs, lout⟩
    rw [hl] at h5
    simp at h5
    subst h5
    have h4' : ¬ cleanCodes (gatherCodes nt) = [] := by
      intro heq
      rw [heq] at h4
      simp at h4
    have h6' : ¬ detalhados.isEmpty = true := by
      rw [h6]
      simp
    simp [select_territorio_id, cbind_snd, cemit, clift, cret,
      h1, h2, h3, h4', hl, h6', h7, h8]

/-- C5 (amended, witness): the five behaviours on concrete garbled
replies. -/
theorem c5_parse_failure_behaviour_witness :
    (get_assunto_id coGarbled2 (PyVal.str "q")).2 =
      Except.error "Não foi possível encontrar o assunto ID" ∧
    (select_agregado_id coGarbled2 agregados0 (PyVal.str "t")).2 =
      Except.error "Não foi possível selecionar o agregado" ∧
    (select_variavel_id coGarbled2 metadata0 (PyVal.str "t")).2 =
      Except.error "Não foi possível selecionar a variável" ∧
    (select_periodo_id coGarbled metadata0 (PyVal.str "t")).2 =
      Except.ok (periodoNormalize (PyVal.str "2022")) ∧
    (select_territorio_id coGarbled metadata0 (PyVal.str "t")).2 =
      Except.ok "N1[all]" :=
  ⟨c5_parse_failure_behaviour.1 coGarbled2 (PyVal.str "q") _ rfl rfl,
   c5_parse_failure_behaviour.2.1 coGarbled2 agregados0 (PyVal.str "t")
     _ _ _ _ rfl rfl rfl rfl rfl rfl,
   c5_parse_failure_behaviour.2.2.1 coGarbled2 metadata0 (PyVal.str "t")
     _ _ _ rfl rfl rfl rfl rfl,
   c5_parse_failure_behaviour.2.2.2.1 coGarbled metadata0 (PyVal.str "t")
     _ _ _ _ rfl rfl rfl rfl rfl rfl rfl,
   c5_parse_failure_behaviour.2.2.2.2 coGarbled metadata0 (PyVal.str "t")
     _ _ _ _ rfl rfl rfl rfl rfl rfl rfl rfl⟩

/-- C6 (counterexample): `CollectorCompleteResult` can NOT be constructed
from an empty input — validation fails on the missing required `success`
(and `task`, `parameters`) fields. -/
theorem c6_required_fields_exist :
    validateCCR "2026-01-01T00:00:00Z" [] =
      Except.error "missing required field success" := by
  rfl

/-- C6 (amended): every field of `CollectorCompleteResult` EXCEPT
`success`, `task` and `parameters` is optional or defaulted: supplying
exactly those three fields constructs a value (all other fields take their
defaults), and every successful construction has all three present in the
input. -/
theorem c6_three_required_fields (now : String) :
    (∀ (b : Bool) (t : String) (p : List (String × PyVal)),
      validateCCR now [("success", .bool b), ("task", .str t),
        ("parameters", .dict p)] =
        Except.ok ⟨b, [], [], [], [], [], [], now, t, p, Option.none,
          Option.none, Option.none, Option.none, Option.none, Option.none,
          Option.none⟩) ∧
    (∀ (input : List (String × PyVal)) (r : CollectorCompleteResult),
      validateCCR now input = Except.ok r →
      (kvLookup input "success").isSome ∧ (kvLookup input "task").isSome ∧
        (kvLookup input "parameters").isSome) := by
  constructor
  · intro b t p
    rfl
  · intro input r h
    unfold validateCCR at h
    obtain ⟨sv, hs, h⟩ := except_bind_ok h
    obtain ⟨_, _, h⟩ := except_bind_ok h
    obtain ⟨_, _, h⟩ := except_bind_ok h
    obtain ⟨_, _, h⟩ := except_bind_ok h
    obtain ⟨_, _, h⟩ := except_bind_ok h
    obtain ⟨_, _, h⟩ := except_bind_ok h
    obtain ⟨_, _, h⟩ := except_bind_ok h
    obtain ⟨_, _, h⟩ := except_bind_ok h
    obtain ⟨tv, htv, h⟩ := except_bind_ok h
    obtain ⟨pv, hpv, h⟩ := except_bind_ok h
    refine ⟨?_, ?_, ?_⟩
    · unfold fieldR at hs
      cases hk : kvLookup input "success" with
      | none => rw [hk] at hs; cases hs
      | some v => simp
    · unfold fieldR at htv
      cases hk : kvLookup input "task" with
      | none => rw [hk] at htv; cases htv
      | some v => simp
    · unfold fieldR at hpv
      cases hk : kvLookup input "parameters" with
      | none => rw [hk] at hpv; cases hpv
      | some v => simp

/-- C6 (amended, witness): the minimal three-field construction succeeds
and has the three required keys. -/
theorem c6_three_required_fields_witness :
    validateCCR "t0" [("success", .bool true), ("task", .str "t"),
      ("parameters", .dict [])] =
      Except.ok ⟨true, [], [], [], [], [], [], "t0", "t", [], Option.none,
        Option.none, Option.none, Option.none, Option.none, Option.none,
        Option.none⟩ ∧
    ((kvLookup [("success", PyVal.bool true), ("task", PyVal.str "t"),
        ("parameters", PyVal.dict [])] "success").isSome ∧
      (kvLookup [("success", PyVal.bool true), ("task", PyVal.str "t"),
        ("parameters", PyVal.dict [])] "task").isSome ∧
      (kvLookup [("success", PyVal.bool true), ("task", PyVal.str "t"),
        ("parameters", PyVal.dict [])] "parameters").isSome) :=
  ⟨(c6_three_required_fields "t0").1 true "t" [],
   (c6_three_required_fields "t0").2 _ _ ((c6_three_required_fields "t0").1 true "t" [])⟩

/-- C7 (witness): the concrete graph run executes planner then collector,
the collector starting on the state holding the planner's plan. -/
theorem c7_sequential_execution_witness :
    stateInit.messages.getLast? =
      some ⟨MsgKind.human, .str "Quantidade populacional por regiao"⟩ ∧
    (graphInvoke ⟨plannerOK, coOK⟩ stateInit).1 =
      [("planner", stateInit),
       ("collector", applyUpdate stateInit
         { execution_plan := some state0.execution_plan,
           current_step := some 0 })] ∧
    (applyUpdate stateInit
      { execution_plan := some state0.execution_plan,
        current_step := some 0 }).execution_plan = state0.execution_plan :=
  ⟨rfl,
   (c7_sequential_execution ⟨plannerOK, coOK⟩ stateInit _ state0.execution_plan
     rfl rfl).1,
   (c7_sequential_execution ⟨plannerOK, coOK⟩ stateInit _ state0.execution_plan
     rfl rfl).2⟩

/-- The collector step of `state0`. -/
def step0 : List (String × PyVal) :=
  [("agent", .str "collector"), ("task", .str "populacao por regiao"),
   ("parameters", .dict [("concept", .str "populacao"),
     ("territory", .str "regiao")])]

/-- C8 (counterexample): a state whose collector step exists but carries a
non-string `task` makes `collector_node` RAISE (the failure
`CollectorCompleteResult` in the `except` branch fails pydantic
validation), instead of returning a state with `current_step + 1`. -/
theorem c8_nonstring_task_raises :
    hasCollectorStep stateBadTask.execution_plan = true ∧
    (collector_node coOK stateBadTask).2 = Except.error "str" := by
  exact ⟨by rfl, by rfl⟩

/-- C8 (amended): for every input state whose plan contains a collector
step that is WELL TYPED (string `task`; dict `parameters` whose
`variables` entry, if any, is a list of strings and whose `filters` entry,
if any, is a dict), `collector_node` returns — on both the success and the
error branch — a state with `current_step` incremented by one,
`messages`, `execution_plan`, `analysis` and `answer` unchanged, and only
`data` replaced (by a `CollectorCompleteResult` dump).  Without a
collector step it raises `ValueError` without returning a state.  (With an
ill-typed step the node can instead propagate a `ValidationError`, per the
counterexample.) -/
theorem c8_collector_frame (o : CollectorOracle) (s : AgentState) :
    (∀ step, findCollectorStep s.execution_plan = some step →
      stepWellTyped step = true →
      ∃ s', (collector_node o s).2 = Except.ok s' ∧
        s'.messages = s.messages ∧
        s'.execution_plan = s.execution_plan ∧
        s'.current_step = s.current_step + 1 ∧
        s'.analysis = s.analysis ∧
        s'.answer = s.answer ∧
        ∃ r, s'.data = CollectorCompleteResult.dump r) ∧
    (findCollectorStep s.execution_plan = Option.none →
      collector_node o s =
        ([], Except.error "Collector step not found in execution plan")) := by
  constructor
  · intro step hf hw
    obtain ⟨r, hr⟩ := collector_node_returns o s hf hw
    exact ⟨frameReturn s r, hr, rfl, rfl, rfl, rfl, rfl, r, rfl⟩
  · exact collector_node_no_step o s

/-- C8 (amended, witness): the frame conditions on the canonical concrete
run. -/
theorem c8_collector_frame_witness :
    findCollectorStep state0.execution_plan = some step0 ∧
    stepWellTyped step0 = true ∧
    ∃ s', (collector_node coOK state0).2 = Except.ok s' ∧
      s'.messages = state0.messages ∧
      s'.execution_plan = state0.execution_plan ∧
      s'.current_step = state0.current_step + 1 ∧
      s'.analysis = state0.analysis ∧
      s'.answer = state0.answer ∧
      ∃ r, s'.data = CollectorCompleteResult.dump r :=
  ⟨rfl, rfl, (c8_collector_frame coOK state0).1 step0 rfl rfl⟩

/-- C10: for every conversion environment and raw input on which
`ibge_results_to_dataframe` succeeds, the produced rows' `(periodo,
valor)` columns are exactly the raw `(period, value)` pairs of the input —
one row per pair of one series under one classification of one result of
one variable, in order — and a row's `valor` is `None` exactly when its
raw value is the string `"..."` or `None` (and otherwise is the float
conversion of the raw value, per `specValor`). -/
theorem c10_dataframe_rows (f : PyVal → Option Rat) (results : List PyVal)
    (name : String) (rows : List IbgeRow)
    (h : ibge_results_to_dataframe f results name = Except.ok rows) :
    rows.map (fun r => (r.periodo, r.valor)) =
      (rawPairs results).map (fun pv => (pv.1, specValor f pv.2)) ∧
    ∀ i (hi : i < rows.length) (hi' : i < (rawPairs results).length),
      ((rows.get ⟨i, hi⟩).valor = Option.none ↔
        isDotsOrNone ((rawPairs results).get ⟨i, hi'⟩).2 = true) := by
  obtain ⟨hmap, hconv⟩ := ibge_results_to_dataframe_spec f results name rows h
  refine ⟨hmap, ?_⟩
  intro i hi hi'
  have h2 := congrArg (fun l => l[i]?) hmap
  simp only [List.getElem?_map] at h2
  rw [List.getElem?_eq_getElem hi, List.getElem?_eq_getElem hi'] at h2
  simp only [Option.map_some'] at h2
  have hv : (rows.get ⟨i, hi⟩).valor =
      specValor f ((rawPairs results).get ⟨i, hi'⟩).2 := by
    simp only [List.get_eq_getElem]
    exact congrArg Prod.snd (Option.some.inj h2)
  rw [hv]
  constructor
  · intro hnone
    by_contra hdots
    have hb : isDotsOrNone ((rawPairs results).get ⟨i, hi'⟩).2 = false := by
      cases hx : isDotsOrNone ((rawPairs results).get ⟨i, hi'⟩).2
      · rfl
      · exact absurd hx hdots
    have hmem : ((rawPairs results).get ⟨i, hi'⟩) ∈ rawPairs results :=
      List.get_mem _ i hi'
    have hc := hconv _ hmem hb
    unfold specValor at hnone
    rw [hb] at hnone
    simp at hnone
    simp only [List.get_eq_getElem] at hc
    rw [hnone] at hc
    cases hc
  · intro hdots
    unfold specValor
    rw [hdots]
    simp

/-- The first row of the concrete frame. -/
def row2022 : IbgeRow :=
  { variavel_id := .int 1, variavel := .str "Populacao",
    unidade := .str "pessoas", classificacao_id := .int 2,
    classificacao := .str "c", categoria_id := some "4",
    categoria := some (.str "Total"), localidade_id := .str "1",
    localidade := .str "Brasil", nivel_id := .str "N1", nivel := .str "Pais",
    periodo := "2022", valor := some 123 }

/-- The second row of the concrete frame (`"..."` raw value). -/
def row2021 : IbgeRow :=
  { row2022 with periodo := "2021"
                 valor := Option.none }

/-- C10 (witness): the concrete payload with one numeric and one `"..."`
value produces exactly two rows with the specified `valor` column. -/
theorem c10_dataframe_rows_witness :
    ibge_results_to_dataframe pyFloat0 [resultVar0] "populacao_regiao" =
      Except.ok [row2022, row2021] ∧
    ([row2022, row2021].map (fun r => (r.periodo, r.valor)) =
      (rawPairs [resultVar0]).map (fun pv => (pv.1, specValor pyFloat0 pv.2))) :=
  ⟨by rfl,
   (c10_dataframe_rows pyFloat0 [resultVar0] "populacao_regiao"
     [row2022, row2021] (by rfl)).1⟩

end PubDataAgent
